import Mathlib

set_option maxRecDepth 16384

/-!
Verification of the LMS6002D control engine (lms.c) of the bladeRF host library.

The development shallowly embeds the functions of
src/host/libraries/libbladeRF/src/lms.c into Lean:

* pure arithmetic (PLL divider math, bandwidth table lookup, register
  bit packing) becomes pure functions on Nat, with an explicit `% 2^w`
  wherever the C narrows to a machine width in a way that could truncate;
* register I/O becomes explicit state passing over a `Dev` record holding
  the 8-bit register file, a read oracle modelling what the chip returns,
  and a per-transaction fault script modelling transport failures.

Constants that live in headers of the same repository that are not part of
the source under examination (libbladeRF.h, lms.h) are modelled from the
specification and the datasheet references quoted in lms.c; each such
definition carries a doc comment starting with: Modelled from the spec.
-/

/-- Modelled from the spec: error taxonomy of libbladeRF.h (header not in
src/). `UnexpectedState` of the spec is BLADERF_ERR_UNEXPECTED. -/
def BLADERF_ERR_UNEXPECTED : Int := -1

/-- Modelled from the spec: BLADERF_ERR_INVAL of libbladeRF.h, the spec's
`InvalidArgument`. -/
def BLADERF_ERR_INVAL : Int := -3

/-- Modelled from the spec: BLADERF_ERR_IO of libbladeRF.h, the spec's
`IoError` (any negative transport code works; transactions in the fault
script may carry arbitrary codes). -/
def BLADERF_ERR_IO : Int := -5

/-- Modelled from the spec: lower end of the tunable range
(BLADERF_FREQUENCY_MIN of libbladeRF.h), the `low` bound of the first
band-table entry. -/
def BLADERF_FREQUENCY_MIN : Nat := 237500000

/-- Modelled from the spec: upper end of the tunable range
(BLADERF_FREQUENCY_MAX of libbladeRF.h); the comment above the band table
in lms.c states the last entry can be applied up to 3.8 GHz. -/
def BLADERF_FREQUENCY_MAX : Nat := 3800000000

/-- Modelled from the spec: the high/low band split (BLADERF_BAND_HIGH of
libbladeRF.h) used for the PLL output-buffer selection. -/
def BLADERF_BAND_HIGH : Nat := 1500000000

/-- Modelled from the spec: RXVGA1 documented gain range (libbladeRF.h);
the val2code table of lms.c is indexed by gains 5..30 and its comment
notes indices 0-4 are clamped to the 5 dB floor. -/
def BLADERF_RXVGA1_GAIN_MIN : Int := 5

/-- Modelled from the spec: RXVGA1 maximum gain in dB. -/
def BLADERF_RXVGA1_GAIN_MAX : Int := 30

/-- Modelled from the spec: RXVGA2 documented gain range, 3 dB per code. -/
def BLADERF_RXVGA2_GAIN_MIN : Int := 0

/-- Modelled from the spec: RXVGA2 maximum gain in dB. -/
def BLADERF_RXVGA2_GAIN_MAX : Int := 30

/-- Modelled from the spec: TXVGA2 documented gain range (5-bit code). -/
def BLADERF_TXVGA2_GAIN_MIN : Int := 0

/-- Modelled from the spec: TXVGA2 maximum gain in dB. -/
def BLADERF_TXVGA2_GAIN_MAX : Int := 25

/-- The two modules (RX/TX PLL and signal paths) of lms.c. -/
inductive LmsModule where
  | rx
  | tx
deriving DecidableEq, Repr

/-- uint_bandwidths of lms.c: the 16-entry LPF conversion table, widest
first, indexed by the 4-bit lms_bw code. -/
def uint_bandwidths : List Nat :=
  [28000000, 20000000, 14000000, 12000000, 10000000, 8750000,
   7000000, 6000000, 5500000, 5000000, 3840000, 3000000,
   2750000, 2500000, 1750000, 1500000]

/-- Modelled from the spec: the lms_bw enumeration of lms.h (header not in
src/) is the 4-bit index into uint_bandwidths, so BW_28MHz = 0 down to
BW_1p5MHz = 15, matching the table order given in the spec. -/
def BW_28MHz : Nat := 0

/-- lms_uint2bw of lms.c: ascending threshold chain selecting the 4-bit
bandwidth code for a requested bandwidth in Hz. -/
def lms_uint2bw (req : Nat) : Nat :=
  if req ≤ 1500000 then 15
  else if req ≤ 1750000 then 14
  else if req ≤ 2500000 then 13
  else if req ≤ 2750000 then 12
  else if req ≤ 3000000 then 11
  else if req ≤ 3840000 then 10
  else if req ≤ 5000000 then 9
  else if req ≤ 5500000 then 8
  else if req ≤ 6000000 then 7
  else if req ≤ 7000000 then 6
  else if req ≤ 8750000 then 5
  else if req ≤ 10000000 then 4
  else if req ≤ 12000000 then 3
  else if req ≤ 14000000 then 2
  else if req ≤ 20000000 then 1
  else 0

/-- lms_bw2uint of lms.c: return the table entry for a bandwidth code
(the code is masked to 4 bits before indexing). -/
def lms_bw2uint (bw : Nat) : Nat :=
  uint_bandwidths.getD (bw &&& 0xf) 0

/-- One row of the freq_range band table of lms.c. -/
structure FreqRange where
  low : Nat
  high : Nat
  value : Nat
deriving DecidableEq, Repr

/-- The 16-entry FREQSEL band table (bands) of lms.c. -/
def bands : List FreqRange :=
  [⟨BLADERF_FREQUENCY_MIN, 285625000, 0x27⟩,
   ⟨285625000, 336875000, 0x2f⟩,
   ⟨336875000, 405000000, 0x37⟩,
   ⟨405000000, 465000000, 0x3f⟩,
   ⟨465000000, 571250000, 0x26⟩,
   ⟨571250000, 673750000, 0x2e⟩,
   ⟨673750000, 810000000, 0x36⟩,
   ⟨810000000, 930000000, 0x3e⟩,
   ⟨930000000, 1142500000, 0x25⟩,
   ⟨1142500000, 1347500000, 0x2d⟩,
   ⟨1347500000, 1620000000, 0x35⟩,
   ⟨1620000000, 1860000000, 0x3d⟩,
   ⟨1860000000, 2285000000, 0x24⟩,
   ⟨2285000000, 2695000000, 0x2c⟩,
   ⟨2695000000, 3240000000, 0x34⟩,
   ⟨3240000000, BLADERF_FREQUENCY_MAX, 0x3c⟩]

/-- The freqsel search loop of lms_set_frequency: first ascending match in
the band table; the initial value bands[0].value is kept if no entry
matches. -/
def freqsel_search (freq : Nat) : List FreqRange → Nat
  | [] => 0x27
  | b :: rest => if b.low ≤ freq ∧ freq ≤ b.high then b.value else freqsel_search freq rest

/-- freqsel chosen by lms_set_frequency for a (clamped) frequency. -/
def freqselOf (freq : Nat) : Nat := freqsel_search freq bands

/-- The frequency clamp at the top of lms_set_frequency. -/
def clamp_frequency (freq : Nat) : Nat :=
  if freq < BLADERF_FREQUENCY_MIN then BLADERF_FREQUENCY_MIN
  else if freq > BLADERF_FREQUENCY_MAX then BLADERF_FREQUENCY_MAX
  else freq

/-- struct lms_freq of lms.h, as filled in by lms_set_frequency and
lms_get_frequency.  Fields are natural numbers carrying the machine
values (x: uint8/uint16, nint: uint16, nfrac/reference: uint32). -/
structure LmsFreq where
  x : Nat
  nint : Nat
  nfrac : Nat
  freqsel : Nat
  reference : Nat
deriving DecidableEq, Repr

/-- The PLL reference clock of lms.c (ref_clock in lms_set_frequency,
f->reference in lms_get_frequency). -/
def lms_ref_clock : Nat := 38400000

/-- The pure arithmetic of lms_set_frequency (lines up to the register
programming): clamp, band search, VCO divider x, integer divider nint
(uint16 cast after the assert), fractional divider nfrac rounded to
nearest via the half-reference bias (uint32 cast after the assert).
All intermediates are computed in uint64 in the C; none can exceed 2^64
for a 32-bit freq (x <= 16, so x*freq < 2^36 and 2^23 * (x*freq % ref)
< 2^49), so the Nat arithmetic is exact and only the final narrowing
casts carry a mod. -/
def lms_freq_params (freq0 : Nat) : LmsFreq :=
  let freq := clamp_frequency freq0
  let freqsel := freqselOf freq
  let vco_x := 2 ^ ((freqsel &&& 7) - 3)
  let nint := (vco_x * freq / lms_ref_clock) % 2 ^ 16
  let nfrac := ((2 ^ 23 * (vco_x * freq - nint * lms_ref_clock) + lms_ref_clock / 2)
                / lms_ref_clock) % 2 ^ 32
  ⟨vco_x % 2 ^ 8, nint, nfrac, freqsel, lms_ref_clock⟩

/-- lms_frequency_to_hz of lms.c: pll_coeff = (nint << 23) + nfrac and
div = x << 23 in uint64/uint32, then ((reference * pll_coeff) + (div >> 1))
/ div computed in uint64 and truncated to uint32. -/
def lms_frequency_to_hz (f : LmsFreq) : Nat :=
  let pll_coeff := (f.nint * 2 ^ 23 + f.nfrac) % 2 ^ 64
  let div := (f.x * 2 ^ 23) % 2 ^ 32
  (((f.reference * pll_coeff) % 2 ^ 64 + div / 2) % 2 ^ 64) / div % 2 ^ 32

/-- The divider packing of lms_set_frequency (writes to base+0..base+3):
the four uint8 data bytes computed from nint and nfrac. -/
def sf_pack_nint_nfrac (nint nfrac : Nat) : Nat × Nat × Nat × Nat :=
  ((nint >>> 1) % 2 ^ 8,
   (((nint &&& 1) <<< 7) ||| ((nfrac >>> 16) &&& 0x7f)) % 2 ^ 8,
   ((nfrac >>> 8) &&& 0xff) % 2 ^ 8,
   (nfrac &&& 0xff) % 2 ^ 8)

/-- The divider decoding of lms_get_frequency (reads of base+0..base+3):
f->nint = (data0 << 1) | ((data1 & 0x80) >> 7) and
f->nfrac = ((data1 & 0x7f) << 16) | (data2 << 8) | data3. -/
def gf_unpack_nint_nfrac (d0 d1 d2 d3 : Nat) : Nat × Nat :=
  ((d0 <<< 1) ||| ((d1 &&& 0x80) >>> 7),
   (((d1 &&& 0x7f) <<< 16) ||| (d2 <<< 8)) ||| d3)

/-- bladerf_lpf_mode of libbladeRF.h. -/
inductive LpfMode where
  | normal
  | bypassed
  | disabled
deriving DecidableEq, Repr

/-- bladerf_loopback of libbladeRF.h: the 8 loopback modes handled by
lms.c (the firmware mode of the header is not handled there). -/
inductive Loopback where
  | bbTxlpfRxvga2
  | bbTxlpfRxlpf
  | bbTxvga1Rxvga2
  | bbTxvga1Rxlpf
  | rfLna1
  | rfLna2
  | rfLna3
  | lbNone
deriving DecidableEq, Repr, Fintype

/-- bladerf_cal_module of libbladeRF.h: the four DC calibration modules. -/
inductive CalModule where
  | lpfTuning
  | txLpf
  | rxLpf
  | rxvga2
deriving DecidableEq, Repr

/-- The decode step of lms_lpf_get_mode: bit 1 of the low register is the
LPF enable, bit 6 of the high register the bypass; enabled-and-bypassed is
rejected with BLADERF_ERR_INVAL. -/
def lms_lpf_get_mode_decode (data_l data_h : Nat) : Int × Option LpfMode :=
  let lpf_enabled := data_l &&& (1 <<< 1) ≠ 0
  let lpf_bypassed := data_h &&& (1 <<< 6) ≠ 0
  if lpf_enabled ∧ ¬ lpf_bypassed then (0, some LpfMode.normal)
  else if ¬ lpf_enabled ∧ lpf_bypassed then (0, some LpfMode.bypassed)
  else if ¬ lpf_enabled ∧ ¬ lpf_bypassed then (0, some LpfMode.disabled)
  else (BLADERF_ERR_INVAL, Option.none)

/-- loopback_path of lms.c, restricted to its effect on the two registers
it writes (0x46, 0x08) under succeeding transactions: both relevant fields
are cleared and the per-mode bits are OR-ed in.  The C masks with the
bitwise complement inside a uint8, i.e. with (mask XOR 255). -/
def loopback_path_regs (mode : Loopback) (loopbben lben_lbrf : Nat) : Nat × Nat :=
  let loopbben := loopbben &&& (12 ^^^ 255)
  let lben_lbrf := lben_lbrf &&& ((0xf ||| 0x70) ^^^ 255)
  match mode with
  | Loopback.bbTxlpfRxvga2 => (loopbben ||| 4, lben_lbrf ||| 32)
  | Loopback.bbTxlpfRxlpf => (loopbben ||| 4, lben_lbrf ||| 64)
  | Loopback.bbTxvga1Rxvga2 => (loopbben ||| 8, lben_lbrf ||| 32)
  | Loopback.bbTxvga1Rxlpf => (loopbben ||| 8, lben_lbrf ||| 64)
  | Loopback.rfLna1 => (loopbben, lben_lbrf ||| 1)
  | Loopback.rfLna2 => (loopbben, lben_lbrf ||| 2)
  | Loopback.rfLna3 => (loopbben, lben_lbrf ||| 3)
  | Loopback.lbNone => (loopbben, lben_lbrf)

/-- The decode step of lms_get_loopback_mode: the RF-loop field
(bits 2:0 of 0x08) has priority; then the baseband destination field
(bits 6:4 of 0x08) combined with the source field (bits 3:2 of 0x46);
anything else decodes as no loopback. -/
def lms_get_loopback_mode_decode (lben_lbrfen loopbben : Nat) : Loopback :=
  if lben_lbrfen &&& 7 = 1 then Loopback.rfLna1
  else if lben_lbrfen &&& 7 = 2 then Loopback.rfLna2
  else if lben_lbrfen &&& 7 = 3 then Loopback.rfLna3
  else if lben_lbrfen &&& 0x70 = 32 then
    (if loopbben &&& 4 ≠ 0 then Loopback.bbTxlpfRxvga2
     else if loopbben &&& 8 ≠ 0 then Loopback.bbTxvga1Rxvga2
     else Loopback.lbNone)
  else if lben_lbrfen &&& 0x70 = 64 then
    (if loopbben &&& 4 ≠ 0 then Loopback.bbTxlpfRxlpf
     else if loopbben &&& 8 ≠ 0 then Loopback.bbTxvga1Rxlpf
     else Loopback.lbNone)
  else Loopback.lbNone

/-- The (0x46 field, 0x08 low-7-bit field) register image that
loopback_path programs for each mode: the claim side's notion of the 8
valid encodings. -/
def loopback_encoding_image (mode : Loopback) : Nat × Nat :=
  match mode with
  | Loopback.bbTxlpfRxvga2 => (4, 32)
  | Loopback.bbTxlpfRxlpf => (4, 64)
  | Loopback.bbTxvga1Rxvga2 => (8, 32)
  | Loopback.bbTxvga1Rxlpf => (8, 64)
  | Loopback.rfLna1 => (0, 1)
  | Loopback.rfLna2 => (0, 2)
  | Loopback.rfLna3 => (0, 3)
  | Loopback.lbNone => (0, 0)

/-- A register pair lies in one of the 8 valid encodings when its fields
written by loopback_path match some mode's image. -/
def is_valid_loopback_encoding (r46 r08 : Nat) : Prop :=
  ∃ m : Loopback, r46 &&& 12 = (loopback_encoding_image m).1 ∧
    r08 &&& 127 = (loopback_encoding_image m).2

instance (r46 r08 : Nat) : Decidable (is_valid_loopback_encoding r46 r08) := by
  unfold is_valid_loopback_encoding
  infer_instance

/-- rxvga1_lut_code2val of lms.c: RXVGA1 code to dB, 121 entries. -/
def rxvga1_lut_code2val : List Nat :=
  [5, 5, 5, 5, 5, 5, 5, 5, 6, 6, 6, 6, 6, 6, 6, 6, 6, 6, 6,
   6, 6, 7, 7, 7, 7, 7, 7, 7, 7, 7, 7, 7, 8, 8, 8, 8, 8, 8,
   8, 8, 8, 8, 8, 9, 9, 9, 9, 9, 9, 9, 9, 9, 10, 10, 10, 10, 10,
   10, 10, 10, 11, 11, 11, 11, 11, 11, 11, 12, 12, 12, 12, 12, 12, 12, 13, 13,
   13, 13, 13, 13, 14, 14, 14, 14, 14, 15, 15, 15, 15, 15, 16, 16, 16, 16, 17,
   17, 17, 18, 18, 18, 18, 19, 19, 19, 20, 20, 21, 21, 22, 22, 22, 23, 24, 24,
   25, 25, 26, 27, 28, 29, 30]

/-- rxvga1_lut_val2code of lms.c: RXVGA1 dB to code, indices 0-30 with
0-4 clamped to the 5 dB floor. -/
def rxvga1_lut_val2code : List Nat :=
  [2, 2, 2, 2, 2, 2, 14, 26, 37, 47, 56, 63, 70, 76, 82, 87,
   91, 95, 99, 102, 104, 107, 109, 111, 113, 114, 116, 117, 118, 119, 120]

/-- The device model: an 8-bit register file, a read oracle (op index,
address, current register file to the byte the chip answers), and a
per-transaction fault script (op index to the status of that
transaction: 0 is success, nonzero the error code of a failing
transaction, as in the C status convention).  The op index counts every
LMS_READ/LMS_WRITE. -/
structure Dev where
  regs : Nat → Nat
  readFn : Nat → Nat → (Nat → Nat) → Nat
  faults : Nat → Int
  idx : Nat

def Dev.bump (d : Dev) : Dev := ⟨d.regs, d.readFn, d.faults, d.idx + 1⟩

/-- One register read transaction: consults the fault script, then the
read oracle (masked to a byte). -/
def LMS_READ (d : Dev) (a : Nat) : Int × Nat × Dev :=
  if d.faults d.idx ≠ 0 then (d.faults d.idx, 0, d.bump)
  else (0, d.readFn d.idx a d.regs % 2 ^ 8, d.bump)

/-- One register write transaction: on success stores the byte. -/
def LMS_WRITE (d : Dev) (a v : Nat) : Int × Dev :=
  if d.faults d.idx ≠ 0 then (d.faults d.idx, d.bump)
  else (0, ⟨fun y => if y = a then v % 2 ^ 8 else d.regs y, d.readFn, d.faults, d.idx + 1⟩)

/-- Modelled from the spec: lms_set, the read-modify-write set-mask helper
of section 4.1 (its definition lives outside lms.c). -/
def lms_set (d : Dev) (a mask : Nat) : Int × Dev :=
  match LMS_READ d a with
  | (s, v, d1) => if s ≠ 0 then (s, d1) else LMS_WRITE d1 a (v ||| mask)

/-- Modelled from the spec: lms_clear, the read-modify-write clear-mask
helper of section 4.1 (complement inside a uint8 is mask XOR 255). -/
def lms_clear (d : Dev) (a mask : Nat) : Int × Dev :=
  match LMS_READ d a with
  | (s, v, d1) => if s ≠ 0 then (s, d1) else LMS_WRITE d1 a (v &&& (mask ^^^ 255))

/-- lms_lpf_get_mode of lms.c: two reads then the pure decode. -/
def lms_lpf_get_mode (d : Dev) (m : LmsModule) : Int × Option LpfMode × Dev :=
  let reg := if m = LmsModule.rx then 0x54 else 0x34
  match LMS_READ d reg with
  | (s, data_l, d1) =>
    if s ≠ 0 then (s, Option.none, d1) else
    match LMS_READ d1 (reg + 1) with
    | (s2, data_h, d2) =>
      if s2 ≠ 0 then (s2, Option.none, d2) else
      match lms_lpf_get_mode_decode data_l data_h with
      | (st, md) => (st, md, d2)

/-- lms_get_loopback_mode of lms.c: read 0x08 and 0x46, then decode. -/
def lms_get_loopback_mode (d : Dev) : Int × Loopback × Dev :=
  match LMS_READ d 0x08 with
  | (s, lben, d1) =>
    if s ≠ 0 then (s, Loopback.lbNone, d1) else
    match LMS_READ d1 0x46 with
    | (s2, bben, d2) =>
      if s2 ≠ 0 then (s2, Loopback.lbNone, d2) else
      (0, lms_get_loopback_mode_decode lben bben, d2)

/-- is_loopback_enabled of lms.c: negative on error, otherwise 0/1. -/
def is_loopback_enabled (d : Dev) : Int × Dev :=
  match lms_get_loopback_mode d with
  | (s, lb, d1) =>
    if s ≠ 0 then (s, d1) else
    (if lb = Loopback.lbNone then 0 else 1, d1)

/-- lms_lna_set_gain of lms.c: gains 1..3 (bypass/mid/max) are written to
bits 7:6 of 0x75; anything else is BLADERF_ERR_INVAL. -/
def lms_lna_set_gain (d : Dev) (gain : Nat) : Int × Dev :=
  if gain = 1 ∨ gain = 2 ∨ gain = 3 then
    match LMS_READ d 0x75 with
    | (s, data, d1) =>
      if s = 0 then
        LMS_WRITE d1 0x75 ((data &&& ((3 <<< 6) ^^^ 255)) ||| ((gain &&& 3) <<< 6))
      else (s, d1)
  else (BLADERF_ERR_INVAL, d)

/-- lms_lna_get_gain of lms.c; value 0 (unknown) is BLADERF_ERR_INVAL. -/
def lms_lna_get_gain (d : Dev) : Int × Nat × Dev :=
  match LMS_READ d 0x75 with
  | (s, data, d1) =>
    if s = 0 then
      let g := (data >>> 6) &&& 3
      if g = 0 then (BLADERF_ERR_INVAL, g, d1) else (0, g, d1)
    else (s, 0, d1)

/-- lms_rxvga1_set_gain of lms.c: clamp into [5,30], then write the
val2code table entry to 0x76.  The return value is the write status. -/
def lms_rxvga1_set_gain (d : Dev) (gain : Int) : Int × Dev :=
  let g := if gain > BLADERF_RXVGA1_GAIN_MAX then BLADERF_RXVGA1_GAIN_MAX
           else if gain < BLADERF_RXVGA1_GAIN_MIN then BLADERF_RXVGA1_GAIN_MIN
           else gain
  LMS_WRITE d 0x76 (rxvga1_lut_val2code.getD g.toNat 0)

/-- lms_rxvga1_get_gain of lms.c: mask to 7 bits, clamp raw codes above
120, then decode through the code2val table. -/
def lms_rxvga1_get_gain (d : Dev) : Int × Int × Dev :=
  match LMS_READ d 0x76 with
  | (s, data, d1) =>
    if s = 0 then
      let data := data &&& 0x7f
      let data := if data > 120 then 120 else data
      (0, (rxvga1_lut_code2val.getD data 0 : Nat), d1)
    else (s, 0, d1)

/-- lms_rxvga2_set_gain of lms.c: clamp into [0,30], 3 dB per code; the
clamped gain is nonnegative so C's int division is Nat division. -/
def lms_rxvga2_set_gain (d : Dev) (gain : Int) : Int × Dev :=
  let g := if gain > BLADERF_RXVGA2_GAIN_MAX then BLADERF_RXVGA2_GAIN_MAX
           else if gain < BLADERF_RXVGA2_GAIN_MIN then BLADERF_RXVGA2_GAIN_MIN
           else gain
  LMS_WRITE d 0x65 (g.toNat / 3)

/-- lms_rxvga2_get_gain of lms.c: data *= 3 in uint8, then returned. -/
def lms_rxvga2_get_gain (d : Dev) : Int × Int × Dev :=
  match LMS_READ d 0x65 with
  | (s, data, d1) =>
    if s = 0 then (0, ((data * 3) % 2 ^ 8 : Nat), d1) else (s, 0, d1)

/-- lms_txvga2_set_gain of lms.c: clamp into [0,25] (the below-minimum
branch writes the literal 0), then read-modify-write bits 7:3 of 0x45. -/
def lms_txvga2_set_gain (d : Dev) (gain_int : Int) : Int × Dev :=
  let gain := if gain_int > BLADERF_TXVGA2_GAIN_MAX then BLADERF_TXVGA2_GAIN_MAX
              else if gain_int < BLADERF_TXVGA2_GAIN_MIN then 0
              else gain_int
  match LMS_READ d 0x45 with
  | (s, data, d1) =>
    if s = 0 then
      LMS_WRITE d1 0x45 ((data &&& ((0x1f <<< 3) ^^^ 255)) ||| ((gain.toNat &&& 0x1f) <<< 3))
    else (s, d1)

/-- Phase A of tune_vcocap: up to 6 iterations of write-code/read-status;
stop on normal, add the step on high, subtract on low (uint8 wraparound
kept), halve the step, fail immediately on any other status.  Returns
(status, vcocap, last vtune, device). -/
def vco_scan_loopA (base data : Nat) : Nat → Dev → Nat → Nat → Nat → Int × Nat × Nat × Dev
  | 0, d, vcocap, _step, vtune => (0, vcocap, vtune, d)
  | fuel + 1, d, vcocap, step, vtune =>
    match LMS_WRITE d (base + 9) (vcocap ||| data) with
    | (s, d1) =>
      if s ≠ 0 then (s, vcocap, vtune, d1) else
      match LMS_READ d1 (base + 10) with
      | (s2, v, d2) =>
        if s2 ≠ 0 then (s2, vcocap, vtune, d2) else
        let vt := v >>> 6
        if vt = 0 then (0, vcocap, vt, d2)
        else if vt = 2 then
          vco_scan_loopA base data fuel d2 ((vcocap + step) % 2 ^ 8) (step >>> 1) vt
        else if vt = 1 then
          vco_scan_loopA base data fuel d2 ((vcocap + 2 ^ 8 - step) % 2 ^ 8) (step >>> 1) vt
        else (BLADERF_ERR_UNEXPECTED, vcocap, vt, d2)

/-- Phase B down-scan of tune_vcocap: while start > 0 and the last status
is not high, decrement, program, read.  Returns (status, start, vtune). -/
def vco_scan_down (base data : Nat) : Nat → Dev → Nat → Int × Nat × Nat × Dev
  | 0, d, vtune => (0, 0, vtune, d)
  | st + 1, d, vtune =>
    if vtune = 2 then (0, st + 1, vtune, d) else
    match LMS_WRITE d (base + 9) (st ||| data) with
    | (s, d1) =>
      if s ≠ 0 then (s, st, vtune, d1) else
      match LMS_READ d1 (base + 10) with
      | (s2, v, d2) =>
        if s2 ≠ 0 then (s2, st, vtune, d2) else
        vco_scan_down base data st d2 (v >>> 6)

/-- Phase B up-scan of tune_vcocap: while stop < 64 and the last status is
not low, increment, program, read.  The fuel argument (65 at the call
site) only realises the bounded loop; it cannot run out before the stop
bound. -/
def vco_scan_up (base data : Nat) : Nat → Dev → Nat → Nat → Int × Nat × Nat × Dev
  | 0, d, stop, vtune => (0, stop, vtune, d)
  | fuel + 1, d, stop, vtune =>
    if 64 ≤ stop ∨ vtune = 1 then (0, stop, vtune, d) else
    match LMS_WRITE d (base + 9) ((stop + 1) ||| data) with
    | (s, d1) =>
      if s ≠ 0 then (s, stop + 1, vtune, d1) else
      match LMS_READ d1 (base + 10) with
      | (s2, v, d2) =>
        if s2 ≠ 0 then (s2, stop + 1, vtune, d2) else
        vco_scan_up base data fuel d2 (stop + 1) (v >>> 6)

/-- tune_vcocap of lms.c: phase A binary search from code 32 step 16,
phase B edge scans, phase C midpoint programming and final check. -/
def tune_vcocap (d : Dev) (base : Nat) : Int × Dev :=
  match LMS_READ d (base + 9) with
  | (s, data0, d1) =>
    if s ≠ 0 then (s, d1) else
    let data := data0 &&& (0x3f ^^^ 255)
    match vco_scan_loopA base data 6 d1 32 16 0 with
    | (sA, vcocap, vtune, d2) =>
      if sA ≠ 0 then (sA, d2) else
      if vtune ≠ 0 then (BLADERF_ERR_UNEXPECTED, d2) else
      match vco_scan_down base data vcocap d2 vtune with
      | (sD, start0, _vtd, d3) =>
        if sD ≠ 0 then (sD, d3) else
        let start := start0 + 1
        match LMS_WRITE d3 (base + 9) (vcocap ||| data) with
        | (sW, d4) =>
          if sW ≠ 0 then (sW, d4) else
          match LMS_READ d4 (base + 10) with
          | (sR, v, d5) =>
            if sR ≠ 0 then (sR, d5) else
            match vco_scan_up base data 65 d5 vcocap (v >>> 6) with
            | (sU, stop0, _vtu, d6) =>
              if sU ≠ 0 then (sU, d6) else
              let stop := stop0 - 1
              let vcocap2 := (start + stop) >>> 1
              match LMS_WRITE d6 (base + 9) (vcocap2 ||| data) with
              | (sW2, d7) =>
                if sW2 ≠ 0 then (sW2, d7) else
                match LMS_READ d7 (base + 10) with
                | (sR2, v2, d8) =>
                  if sR2 ≠ 0 then (sR2, d8) else
                  if v2 >>> 6 ≠ 0 then (BLADERF_ERR_UNEXPECTED, d8) else (0, d8)

/-- write_pll_config of lms.c. -/
def write_pll_config (d : Dev) (m : LmsModule) (frequency freqsel : Nat) : Int × Dev :=
  let addr := if m = LmsModule.tx then 0x15 else 0x25
  match LMS_READ d addr with
  | (s, regval, d1) =>
    if s ≠ 0 then (s, d1) else
    match is_loopback_enabled d1 with
    | (st, d2) =>
      if st < 0 then (st, d2) else
      if st = 0 then
        let selout := if frequency < BLADERF_BAND_HIGH then 1 else 2
        LMS_WRITE d2 addr ((freqsel <<< 2) ||| selout)
      else
        LMS_WRITE d2 addr ((regval &&& (0xfc ^^^ 255)) ||| (freqsel <<< 2))

/-- Step 5 of lms_set_frequency: read-modify-write 0x09 setting both
delta-sigma modulator enable bits (0x05). -/
def sf_step5_dsm_on (d : Dev) : Int × Dev :=
  match LMS_READ d 0x09 with
  | (s, data, d1) => if s ≠ 0 then (s, d1) else LMS_WRITE d1 0x09 (data ||| 0x05)

/-- Step 7 of lms_set_frequency: the four divider register writes. -/
def sf_step7_dividers (d : Dev) (base nint nfrac : Nat) : Int × Dev :=
  match sf_pack_nint_nfrac nint nfrac with
  | (b0, b1, b2, b3) =>
    match LMS_WRITE d (base + 0) b0 with
    | (s, d1) =>
      if s ≠ 0 then (s, d1) else
      match LMS_WRITE d1 (base + 1) b1 with
      | (s2, d2) =>
        if s2 ≠ 0 then (s2, d2) else
        match LMS_WRITE d2 (base + 2) b2 with
        | (s3, d3) =>
          if s3 ≠ 0 then (s3, d3) else
          LMS_WRITE d3 (base + 3) b3

/-- Step 8 of lms_set_frequency: charge-pump current programming of
base+6 (set 0x0c), base+7 and base+8 (clear the 5-bit fields). -/
def sf_step8_charge_pump (d : Dev) (base : Nat) : Int × Dev :=
  match LMS_READ d (base + 6) with
  | (s, data, d1) =>
    if s ≠ 0 then (s, d1) else
    match LMS_WRITE d1 (base + 6) ((data &&& (0x1f ^^^ 255)) ||| 0x0c) with
    | (s2, d2) =>
      if s2 ≠ 0 then (s2, d2) else
      match LMS_READ d2 (base + 7) with
      | (s3, data3, d3) =>
        if s3 ≠ 0 then (s3, d3) else
        match LMS_WRITE d3 (base + 7) (data3 &&& (0x1f ^^^ 255)) with
        | (s4, d4) =>
          if s4 ≠ 0 then (s4, d4) else
          match LMS_READ d4 (base + 8) with
          | (s5, data5, d5) =>
            if s5 ≠ 0 then (s5, d5) else
            LMS_WRITE d5 (base + 8) (data5 &&& (0x1f ^^^ 255))

/-- Steps 6-9 of lms_set_frequency (everything between the DSM enable and
the DSM disable), short-circuiting on the first error exactly as the C
gotos do. -/
def sf_body (d : Dev) (m : LmsModule) (freq : Nat) : Int × Dev :=
  let base := if m = LmsModule.rx then 0x20 else 0x10
  let f := lms_freq_params freq
  match write_pll_config d m (clamp_frequency freq) f.freqsel with
  | (s, d1) =>
    if s ≠ 0 then (s, d1) else
    match sf_step7_dividers d1 base f.nint f.nfrac with
    | (s2, d2) =>
      if s2 ≠ 0 then (s2, d2) else
      match sf_step8_charge_pump d2 base with
      | (s3, d3) =>
        if s3 ≠ 0 then (s3, d3) else
        tune_vcocap d3 base

/-- Step 10 of lms_set_frequency: read-modify-write 0x09 clearing both
delta-sigma modulator enable bits. -/
def sf_dsm_off (d : Dev) : Int × Dev :=
  match LMS_READ d 0x09 with
  | (s, data, d1) => if s ≠ 0 then (s, d1) else LMS_WRITE d1 0x09 (data &&& (0x05 ^^^ 255))

/-- lms_set_frequency of lms.c: DSM enable, body, then the always-run DSM
disable; the body's error wins, the cleanup's status is reported only when
the body succeeded. -/
def lms_set_frequency (d : Dev) (m : LmsModule) (freq : Nat) : Int × Dev :=
  match sf_step5_dsm_on d with
  | (s, d1) =>
    if s ≠ 0 then (s, d1) else
    match sf_body d1 m freq with
    | (sb, d2) =>
      match sf_dsm_off d2 with
      | (sc, d3) => (if sb = 0 then sc else sb, d3)

/-- struct dc_cal_state of lms.c. -/
structure DcCalState where
  clk_en : Nat
  reg0x71 : Nat
  reg0x7c : Nat
  lna_gain : Nat
  rxvga1_gain : Int
  rxvga2_gain : Int
  base_addr : Nat
  num_submodules : Nat
  rxvga1_curr_gain : Int
  rxvga2_curr_gain : Int
deriving Repr

def DcCalState.setCurr1 (st : DcCalState) (g : Int) : DcCalState :=
  ⟨st.clk_en, st.reg0x71, st.reg0x7c, st.lna_gain, st.rxvga1_gain, st.rxvga2_gain,
   st.base_addr, st.num_submodules, g, st.rxvga2_curr_gain⟩

def DcCalState.setCurr2 (st : DcCalState) (g : Int) : DcCalState :=
  ⟨st.clk_en, st.reg0x71, st.reg0x7c, st.lna_gain, st.rxvga1_gain, st.rxvga2_gain,
   st.base_addr, st.num_submodules, st.rxvga1_curr_gain, g⟩

def DcCalState.setModuleInfo (st : DcCalState) (base n : Nat) : DcCalState :=
  ⟨st.clk_en, st.reg0x71, st.reg0x7c, st.lna_gain, st.rxvga1_gain, st.rxvga2_gain,
   base, n, st.rxvga1_curr_gain, st.rxvga2_curr_gain⟩

/-- The polling loop of lms_dc_cal_loop: up to 25 reads of the active-low
done bit (bit 1 of base+1); on done, read the 6-bit result from base.
Returns (status, some result if done). -/
def dc_cal_poll (base : Nat) : Nat → Dev → Int × Option Nat × Dev
  | 0, d => (0, Option.none, d)
  | fuel + 1, d =>
    match LMS_READ d (base + 1) with
    | (s, val, d1) =>
      if s ≠ 0 then (s, Option.none, d1) else
      if (val >>> 1) &&& 1 = 0 then
        match LMS_READ d1 base with
        | (s2, rv, d2) =>
          if s2 ≠ 0 then (s2, Option.none, d2) else (0, some (rv &&& 0x3f), d2)
      else dc_cal_poll base fuel d1

/-- lms_dc_cal_loop of lms.c: program the submodule address, latch
DC_CNTVAL (load strobe), start strobe, then poll up to 25 times; not done
within 25 polls is BLADERF_ERR_UNEXPECTED. -/
def lms_dc_cal_loop (d : Dev) (base cal_address dc_cntval : Nat) : Int × Nat × Dev :=
  match LMS_READ d (base + 3) with
  | (s, val0, d1) =>
    if s ≠ 0 then (s, 0, d1) else
    let val := (val0 &&& (7 ^^^ 255)) ||| (cal_address &&& 7)
    match LMS_WRITE d1 (base + 3) val with
    | (s1, d2) =>
      if s1 ≠ 0 then (s1, 0, d2) else
      match LMS_WRITE d2 (base + 2) dc_cntval with
      | (s2, d3) =>
        if s2 ≠ 0 then (s2, 0, d3) else
        let val1 := val ||| (1 <<< 4)
        match LMS_WRITE d3 (base + 3) val1 with
        | (s3, d4) =>
          if s3 ≠ 0 then (s3, 0, d4) else
          let val2 := val1 &&& ((1 <<< 4) ^^^ 255)
          match LMS_WRITE d4 (base + 3) val2 with
          | (s4, d5) =>
            if s4 ≠ 0 then (s4, 0, d5) else
            let val3 := val2 ||| (1 <<< 5)
            match LMS_WRITE d5 (base + 3) val3 with
            | (s5, d6) =>
              if s5 ≠ 0 then (s5, 0, d6) else
              let val4 := val3 &&& ((1 <<< 5) ^^^ 255)
              match LMS_WRITE d6 (base + 3) val4 with
              | (s6, d7) =>
                if s6 ≠ 0 then (s6, 0, d7) else
                match dc_cal_poll base 25 d7 with
                | (s7, regOpt, d8) =>
                  if s7 ≠ 0 then (s7, 0, d8) else
                  match regOpt with
                  | Option.none => (BLADERF_ERR_UNEXPECTED, 0, d8)
                  | some rv => (0, rv, d8)

/-- The LPF tuning special case of dc_cal_submodule: copy the converged
value into the TX (0x35) and RX (0x55) DCCAL target fields. -/
def dc_cal_lpf_tuning_writeback (d : Dev) (dc_regval : Nat) : Int × Dev :=
  match LMS_READ d 0x35 with
  | (s, val, d1) =>
    if s ≠ 0 then (s, d1) else
    match LMS_WRITE d1 0x35 ((val &&& (0x3f ^^^ 255)) ||| dc_regval) with
    | (s1, d2) =>
      if s1 ≠ 0 then (s1, d2) else
      match LMS_READ d2 0x55 with
      | (s2, val2, d3) =>
        if s2 ≠ 0 then (s2, d3) else
        LMS_WRITE d3 0x55 ((val2 &&& (0x3f ^^^ 255)) ||| dc_regval)

/-- The RXVGA2 gain-stage selection at the top of dc_cal_submodule. -/
def dc_cal_rxvga2_setup (d : Dev) (submodule : Nat) : Int × Dev :=
  match submodule with
  | 0 =>
    (match lms_clear d 0x64 1 with
     | (s, d1) => if s ≠ 0 then (s, d1) else LMS_WRITE d1 0x68 0x01)
  | 1 =>
    (match lms_set d 0x64 1 with
     | (s, d1) => if s ≠ 0 then (s, d1) else LMS_WRITE d1 0x68 0x06)
  | 2 => (0, d)
  | 3 => LMS_WRITE d 0x68 0x60
  | 4 => (0, d)
  | _ => (BLADERF_ERR_UNEXPECTED, d)

/-- dc_cal_submodule of lms.c: optional RXVGA2 setup, the calibration loop
with DC_CNTVAL 31, the documented 31-then-0 retry (retry once with
DC_CNTVAL 0; a retry result of 0 reports status 0 with converged still
false), the LPF tuning write-back, then converged := true. -/
def dc_cal_submodule (d : Dev) (module : CalModule) (submodule : Nat)
    (st : DcCalState) : Int × Bool × Dev :=
  match (if module = CalModule.rxvga2 then dc_cal_rxvga2_setup d submodule else (0, d)) with
  | (s0, d1) =>
    if s0 ≠ 0 then (s0, false, d1) else
    match lms_dc_cal_loop d1 st.base_addr submodule 31 with
    | (s1, dc_regval, d2) =>
      if s1 ≠ 0 then (s1, false, d2) else
      match (if dc_regval = 31 then lms_dc_cal_loop d2 st.base_addr submodule 0
             else (0, dc_regval, d2)) with
      | (s2, rv2, d3) =>
        if s2 ≠ 0 then (s2, false, d3) else
        if dc_regval = 31 ∧ rv2 = 0 then (0, false, d3) else
        if module = CalModule.lpfTuning then
          match dc_cal_lpf_tuning_writeback d3 rv2 with
          | (s3, d4) => if s3 ≠ 0 then (s3, false, d4) else (0, true, d4)
        else (0, true, d3)

/-- The submodule loop of dc_cal_module: run submodules in increasing
order while converged and no error. -/
def dc_cal_module_iter (module : CalModule) (st : DcCalState) :
    Nat → Nat → Dev → Bool → Int × Bool × Dev
  | 0, _i, d, conv => (0, conv, d)
  | fuel + 1, i, d, conv =>
    if i < st.num_submodules ∧ conv then
      match dc_cal_submodule d module i st with
      | (s, conv2, d1) =>
        if s ≠ 0 then (s, conv2, d1) else
        dc_cal_module_iter module st fuel (i + 1) d1 conv2
    else (0, conv, d)

/-- dc_cal_module of lms.c. -/
def dc_cal_module (d : Dev) (module : CalModule) (st : DcCalState) : Int × Bool × Dev :=
  dc_cal_module_iter module st st.num_submodules 0 d true

/-- dc_cal_retry_adjustment of lms.c: returns (status, new state,
limit_reached, device). -/
def dc_cal_retry_adjustment (d : Dev) (module : CalModule) (st : DcCalState) :
    Int × DcCalState × Bool × Dev :=
  match module with
  | CalModule.lpfTuning => (0, st, true, d)
  | CalModule.txLpf => (0, st, true, d)
  | CalModule.rxLpf =>
    if st.rxvga1_curr_gain > BLADERF_RXVGA1_GAIN_MIN then
      let st2 := st.setCurr1 (st.rxvga1_curr_gain - 1)
      match lms_rxvga1_set_gain d st2.rxvga1_curr_gain with
      | (s, d1) => (s, st2, false, d1)
    else (0, st, true, d)
  | CalModule.rxvga2 =>
    if st.rxvga1_curr_gain > BLADERF_RXVGA1_GAIN_MIN then
      let st2 := st.setCurr1 (st.rxvga1_curr_gain - 1)
      match lms_rxvga1_set_gain d st2.rxvga1_curr_gain with
      | (s, d1) => (s, st2, false, d1)
    else if st.rxvga2_curr_gain > BLADERF_RXVGA2_GAIN_MIN then
      let st2 := st.setCurr2 (st.rxvga2_curr_gain - 3)
      match lms_rxvga2_set_gain d st2.rxvga2_curr_gain with
      | (s, d1) => (s, st2, false, d1)
    else (0, st, true, d)

/-- dc_cal_backup of lms.c: save the clock enables and, for the RX
modules, registers 0x71/0x7c and the three gains. -/
def dc_cal_backup (d : Dev) (module : CalModule) : Int × DcCalState × Dev :=
  let st0 : DcCalState := ⟨0, 0, 0, 0, 0, 0, 0, 0, 0, 0⟩
  match LMS_READ d 0x09 with
  | (s, clk, d1) =>
    if s ≠ 0 then (s, st0, d1) else
    if module = CalModule.rxLpf ∨ module = CalModule.rxvga2 then
      match LMS_READ d1 0x71 with
      | (s1, r71, d2) =>
        if s1 ≠ 0 then (s1, st0, d2) else
        match LMS_READ d2 0x7c with
        | (s2, r7c, d3) =>
          if s2 ≠ 0 then (s2, st0, d3) else
          match lms_lna_get_gain d3 with
          | (s3, lg, d4) =>
            if s3 ≠ 0 then (s3, st0, d4) else
            match lms_rxvga1_get_gain d4 with
            | (s4, g1, d5) =>
              if s4 ≠ 0 then (s4, st0, d5) else
              match lms_rxvga2_get_gain d5 with
              | (s5, g2, d6) =>
                if s5 ≠ 0 then (s5, st0, d6) else
                (0, ⟨clk, r71, r7c, lg, g1, g2, 0, 0, 0, 0⟩, d6)
    else (0, ⟨clk, 0, 0, 0, 0, 0, 0, 0, 0, 0⟩, d1)

/-- The shared RX-module gain setup of dc_cal_module_init: reroute the
LNA (0x71 bit 7 cleared, 0x7c bit 2 set from the backed-up values), then
program maximum LNA/RXVGA1/RXVGA2 gains, tracking the current gains. -/
def dc_cal_rx_gain_setup (d : Dev) (st : DcCalState) : Int × DcCalState × Dev :=
  match LMS_WRITE d 0x71 (st.reg0x71 &&& ((1 <<< 7) ^^^ 255)) with
  | (s, d1) =>
    if s ≠ 0 then (s, st, d1) else
    match LMS_WRITE d1 0x7c (st.reg0x7c ||| (1 <<< 2)) with
    | (s1, d2) =>
      if s1 ≠ 0 then (s1, st, d2) else
      match lms_lna_set_gain d2 3 with
      | (s2, d3) =>
        if s2 ≠ 0 then (s2, st, d3) else
        let st2 := st.setCurr1 BLADERF_RXVGA1_GAIN_MAX
        match lms_rxvga1_set_gain d3 st2.rxvga1_curr_gain with
        | (s3, d4) =>
          if s3 ≠ 0 then (s3, st2, d4) else
          let st3 := st2.setCurr2 BLADERF_RXVGA2_GAIN_MAX
          match lms_rxvga2_set_gain d4 st3.rxvga2_curr_gain with
          | (s4, d5) => (s4, st3, d5)

/-- dc_cal_module_init of lms.c: select the calibration clock bit, base
address and submodule count, enable the clock, then run the
module-specific setup (comparator power, LNA rerouting, max gains for the
RX modules; DAC quiescence for TX LPF). -/
def dc_cal_module_init (d : Dev) (module : CalModule) (st : DcCalState) :
    Int × DcCalState × Dev :=
  let info : Nat × Nat × Nat :=
    match module with
    | CalModule.lpfTuning => (1 <<< 5, 0x00, 1)
    | CalModule.txLpf => (1 <<< 1, 0x30, 2)
    | CalModule.rxLpf => (1 <<< 3, 0x50, 2)
    | CalModule.rxvga2 => (1 <<< 4, 0x60, 5)
  match info with
  | (cal_clock, base, n) =>
    let st1 := st.setModuleInfo base n
    match LMS_WRITE d 0x09 (st.clk_en ||| cal_clock) with
    | (s, d1) =>
      if s ≠ 0 then (s, st1, d1) else
      match module with
      | CalModule.lpfTuning => (0, st1, d1)
      | CalModule.txLpf =>
        (match lms_set d1 0x36 (1 <<< 7) with
         | (s1, d2) =>
           if s1 ≠ 0 then (s1, st1, d2) else
           match lms_clear d2 0x3f (1 <<< 7) with
           | (s2, d3) => (s2, st1, d3))
      | CalModule.rxLpf =>
        (match lms_clear d1 0x5f (1 <<< 7) with
         | (s1, d2) =>
           if s1 ≠ 0 then (s1, st1, d2) else
           dc_cal_rx_gain_setup d2 st1)
      | CalModule.rxvga2 =>
        (match lms_clear d1 0x6e (3 <<< 6) with
         | (s1, d2) =>
           if s1 ≠ 0 then (s1, st1, d2) else
           dc_cal_rx_gain_setup d2 st1)

/-- dc_cal_module_deinit of lms.c. -/
def dc_cal_module_deinit (d : Dev) (module : CalModule) : Int × Dev :=
  match module with
  | CalModule.lpfTuning => (0, d)
  | CalModule.rxLpf => lms_set d 0x5f (1 <<< 7)
  | CalModule.rxvga2 =>
    (match LMS_WRITE d 0x68 0x01 with
     | (s, d1) =>
       if s ≠ 0 then (s, d1) else
       match lms_clear d1 0x64 1 with
       | (s1, d2) =>
         if s1 ≠ 0 then (s1, d2) else
         lms_set d2 0x6e (3 <<< 6))
  | CalModule.txLpf =>
    (match lms_set d 0x3f (1 <<< 7) with
     | (s, d1) =>
       if s ≠ 0 then (s, d1) else
       lms_clear d1 0x36 (1 <<< 7))

/-- dc_cal_restore of lms.c: always writes everything back, remembering
the first error (with the C quirk that the final rxvga2 restore status
overrides unconditionally). -/
def dc_cal_restore (d : Dev) (module : CalModule) (st : DcCalState) : Int × Dev :=
  match LMS_WRITE d 0x09 st.clk_en with
  | (s0, d1) =>
    let ret : Int := if s0 ≠ 0 then s0 else 0
    if module = CalModule.rxLpf ∨ module = CalModule.rxvga2 then
      match LMS_WRITE d1 0x71 st.reg0x71 with
      | (s1, d2) =>
        let ret := if s1 ≠ 0 ∧ ret = 0 then s1 else ret
        match LMS_WRITE d2 0x7c st.reg0x7c with
        | (s2, d3) =>
          let ret := if s2 ≠ 0 ∧ ret = 0 then s2 else ret
          match lms_lna_set_gain d3 st.lna_gain with
          | (s3, d4) =>
            let ret := if s3 ≠ 0 ∧ ret = 0 then s3 else ret
            match lms_rxvga1_set_gain d4 st.rxvga1_gain with
            | (s4, d5) =>
              let ret := if s4 ≠ 0 ∧ ret = 0 then s4 else ret
              match lms_rxvga2_set_gain d5 st.rxvga2_gain with
              | (s5, d6) =>
                let ret := if s5 ≠ 0 then s5 else ret
                (ret, d6)
    else (ret, d1)

/-- The converge-and-retry loop of lms_calibrate_dc.  The C while loop
terminates because each retry adjustment strictly lowers a gain or sets
limit_reached; the fuel realises that bound and the returned flag records
whether the loop was cut short by fuel (it never is from the real entry
state, which the theorems prove). -/
def dc_cal_main_loop (module : CalModule) :
    Nat → Dev → DcCalState → Bool → Bool → Int → Int × Dev × DcCalState × Bool × Bool
  | 0, d, st, conv, _limit, status => (status, d, st, conv, true)
  | fuel + 1, d, st, conv, limit, status =>
    if ¬ conv ∧ ¬ limit ∧ status = 0 then
      match dc_cal_module d module st with
      | (s, conv2, d1) =>
        if s = 0 ∧ ¬ conv2 then
          match dc_cal_retry_adjustment d1 module st with
          | (s2, st2, limit2, d2) => dc_cal_main_loop module fuel d2 st2 conv2 limit2 s2
        else dc_cal_main_loop module fuel d1 st conv2 limit s
    else (status, d, st, conv, false)

/-- lms_calibrate_dc of lms.c: backup, init, converge loop (unconverged
clean exit is BLADERF_ERR_UNEXPECTED), then always deinit and restore,
reporting the first error. -/
def lms_calibrate_dc (d : Dev) (module : CalModule) : Int × Dev :=
  match dc_cal_backup d module with
  | (s0, st, d1) =>
    if s0 ≠ 0 then (s0, d1) else
    match dc_cal_module_init d1 module st with
    | (si, st2, d2) =>
      match (if si ≠ 0 then (si, d2, st2)
             else
               match dc_cal_main_loop module 64 d2 st2 false false 0 with
               | (sl, d3, st3, conv, _fo) =>
                 (if ¬ conv ∧ sl = 0 then BLADERF_ERR_UNEXPECTED else sl, d3, st3)) with
      | (serr, d4, st4) =>
        match dc_cal_module_deinit d4 module with
        | (sd, d5) =>
          let s5 := if serr ≠ 0 then serr else sd
          match dc_cal_restore d5 module st4 with
          | (sr, d6) => (if s5 ≠ 0 then s5 else sr, d6)

/-- A fault-free device whose reads return the stored register values. -/
def devNoFault (regs0 : Nat → Nat) : Dev :=
  ⟨regs0, fun _ a regs => regs a, fun _ => 0, 0⟩

/-- A fault-free device whose tune-status register base+10 answers with
vt applied to the 6-bit trim code last written to base+9 (the
deterministic chip model of VCO tuning); all other reads return the
stored values. -/
def mkVcoDev (base : Nat) (vt : Nat → Nat) (regs0 : Nat → Nat) : Dev :=
  ⟨regs0,
   fun _ a regs => if a = base + 10 then vt (regs (base + 9) &&& 63) else regs a,
   fun _ => 0, 0⟩

/-- A fault-free device that always reports calibration done immediately
(base+1 reads 0) and answers the DC_REGVAL read at base with 31 exactly
when the last latched DC_CNTVAL (stored at base+2) is 31, else 0: it
realises the 31-then-0 retry scenario on every submodule attempt. -/
def dcQuirkDev (base : Nat) : Dev :=
  ⟨fun _ => 0xC0,
   fun _ a regs =>
     if a = base then (if regs (base + 2) = 31 then 31 else 0)
     else if a = base + 1 then 0
     else regs a,
   fun _ => 0, 0⟩

/-- A fault-free device that never reports calibration done (bit 1 of
base+1 always set). -/
def neverDoneDev (base : Nat) (regs0 : Nat → Nat) : Dev :=
  ⟨regs0,
   fun _ a regs => if a = base + 1 then 2 else regs a,
   fun _ => 0, 0⟩

/-- A fault-free device that reports calibration not-done on every base+1
read with op index below k and done from index k onward. -/
def pollSchedDev (base k : Nat) (regs0 : Nat → Nat) : Dev :=
  ⟨regs0,
   fun i a regs => if a = base + 1 then (if i < k then 2 else 0) else regs a,
   fun _ => 0, 0⟩

/-- mkVcoDev generalised to an arbitrary op index (the states reached
while tune_vcocap runs on a mkVcoDev all have this shape). -/
def mkVcoDevAt (base : Nat) (vt : Nat → Nat) (regs0 : Nat → Nat) (idx : Nat) : Dev :=
  ⟨regs0,
   fun _ a regs => if a = base + 10 then vt (regs (base + 9) &&& 63) else regs a,
   fun _ => 0, idx⟩

/-- The 2-bit tune status the code extracts from a status byte answered
by the chip model: the byte is masked to 8 bits by the read and shifted
by 6 as in tune_vcocap. -/
def vco_status (vt : Nat → Nat) (c : Nat) : Nat := (vt c % 2 ^ 8) >>> 6

/-- Modelled from the spec (claim side): phase A of VCO tuning as the
claim words it - start at code 32 with step 16, up to 6 iterations, stop
on normal (0), add the step on high (2), subtract on low (1), halve the
step each iteration, fail on any other status or on exhaustion.
Arithmetic on the code is uint8 as in the C. -/
def phaseA_claim (st : Nat → Nat) : Nat → Nat → Nat → Option Nat
  | 0, _vcocap, _step => Option.none
  | fuel + 1, vcocap, step =>
    if st vcocap = 0 then some vcocap
    else if st vcocap = 2 then phaseA_claim st fuel ((vcocap + step) % 2 ^ 8) (step >>> 1)
    else if st vcocap = 1 then
      phaseA_claim st fuel ((vcocap + 2 ^ 8 - step) % 2 ^ 8) (step >>> 1)
    else Option.none

/-- Modelled from the spec (claim side): the lower edge found by phase B,
scanning downward one code at a time while the status is not high, then
stepping back up by one. -/
def lowerEdge (st : Nat → Nat) : Nat → Nat → Nat
  | 0, _vt => 1
  | c + 1, vtune => if vtune = 2 then c + 2 else lowerEdge st c (st c)

/-- Modelled from the spec (claim side): the upper edge found by phase B,
scanning upward one code at a time while the status is not low (the code
field is 6 bits, so the probe at 64 reads the status of code 0), then
stepping back down by one. -/
def upperEdge (st : Nat → Nat) : Nat → Nat → Nat → Nat
  | 0, stop, _vt => stop - 1
  | fuel + 1, stop, vtune =>
    if 64 ≤ stop ∨ vtune = 1 then stop - 1
    else upperEdge st fuel (stop + 1) (st ((stop + 1) &&& 63))

/-- The phase A verdict of the code: run the initial base+9 read and the
phase A loop of tune_vcocap on a mkVcoDev and classify the outcome. -/
def phaseA_code_result (base : Nat) (vt regs0 : Nat → Nat) : Option Nat :=
  match LMS_READ (mkVcoDev base vt regs0) (base + 9) with
  | (_, data0, d1) =>
    match vco_scan_loopA base (data0 &&& (0x3f ^^^ 255)) 6 d1 32 16 0 with
    | (s, vc, vtu, _) => if s = 0 ∧ vtu = 0 then some vc else Option.none

/-- The register file after tune_vcocap programs trim code vc over the
preserved high bits data. -/
def vco_wregs (base vc data : Nat) (regs : Nat → Nat) : Nat → Nat :=
  fun y => if y = base + 9 then (vc ||| data) % 2 ^ 8 else regs y

theorem and1_eq_mod (y : Nat) : y &&& 1 = y % 2 := Nat.and_one_is_mod y

theorem and7_eq_mod (y : Nat) : y &&& 7 = y % 8 := by
  simpa using Nat.and_pow_two_sub_one_eq_mod y 3

theorem and15_eq_mod (y : Nat) : y &&& 15 = y % 16 := by
  simpa using Nat.and_pow_two_sub_one_eq_mod y 4

theorem and63_eq_mod (y : Nat) : y &&& 63 = y % 64 := by
  simpa using Nat.and_pow_two_sub_one_eq_mod y 6

theorem and127_eq_mod (y : Nat) : y &&& 127 = y % 128 := by
  simpa using Nat.and_pow_two_sub_one_eq_mod y 7

theorem and255_eq_mod (y : Nat) : y &&& 255 = y % 256 := by
  simpa using Nat.and_pow_two_sub_one_eq_mod y 8

theorem or_split_hi (a b i : Nat) (h : b < 2 ^ i) : (2 ^ i * a) ||| b = 2 ^ i * a + b :=
  (Nat.mul_add_lt_is_or h a).symm

theorem and128_split (a b : Nat) (ha : a < 2) (hb : b < 128) :
    (128 * a + b) &&& 128 = 128 * a := by
  have h2 : ∀ x : Fin 2, ∀ y : Fin 128,
      (128 * x.1 + y.1) &&& 128 = 128 * x.1 := by decide
  exact h2 ⟨a, ha⟩ ⟨b, hb⟩

/-- C10: packing nint (< 2^9) and nfrac (< 2^23) into the four divider
registers as lms_set_frequency does, then decoding those registers as
lms_get_frequency does, recovers nint and nfrac exactly. -/
theorem get_frequency_inverts_set_frequency_packing (nint nfrac : Nat)
    (h1 : nint < 2 ^ 9) (h2 : nfrac < 2 ^ 23) :
    (fun p => gf_unpack_nint_nfrac p.1 p.2.1 p.2.2.1 p.2.2.2)
      (sf_pack_nint_nfrac nint nfrac) = (nint, nfrac) := by
  unfold sf_pack_nint_nfrac gf_unpack_nint_nfrac
  simp only [Nat.shiftRight_eq_div_pow, Nat.shiftLeft_eq, and1_eq_mod, and127_eq_mod,
    and255_eq_mod]
  have hd0 : nint / 2 ^ 1 % 2 ^ 8 = nint / 2 := by omega
  have hb : nfrac / 2 ^ 16 % 128 < 128 := Nat.mod_lt _ (by norm_num)
  have ha : nint % 2 < 2 := Nat.mod_lt _ (by norm_num)
  have hor1 : nint % 2 * 2 ^ 7 ||| nfrac / 2 ^ 16 % 128 = 128 * (nint % 2) + nfrac / 2 ^ 16 % 128 := by
    have := or_split_hi (nint % 2) (nfrac / 2 ^ 16 % 128) 7 (by omega)
    calc nint % 2 * 2 ^ 7 ||| nfrac / 2 ^ 16 % 128
        = 2 ^ 7 * (nint % 2) ||| nfrac / 2 ^ 16 % 128 := by ring_nf
      _ = 128 * (nint % 2) + nfrac / 2 ^ 16 % 128 := by rw [this]; ring
  have hd1 : (nint % 2 * 2 ^ 7 ||| nfrac / 2 ^ 16 % 128) % 2 ^ 8
      = 128 * (nint % 2) + nfrac / 2 ^ 16 % 128 := by
    rw [hor1]; omega
  rw [hd0, hd1]
  have hsplit80 := and128_split (nint % 2) (nfrac / 2 ^ 16 % 128) ha hb
  have hsplit7f : (128 * (nint % 2) + nfrac / 2 ^ 16 % 128) % 128 = nfrac / 2 ^ 16 % 128 := by
    omega
  rw [hsplit80, hsplit7f]
  have hr2 : nfrac / 2 ^ 8 % 256 % 2 ^ 8 = nfrac / 2 ^ 8 % 256 := by omega
  have hr3 : nfrac % 256 % 2 ^ 8 = nfrac % 256 := by omega
  rw [hr2, hr3]
  have hnint : nint / 2 * 2 ^ 1 ||| 128 * (nint % 2) / 2 ^ 7 = nint := by
    have hlt : 128 * (nint % 2) / 2 ^ 7 < 2 ^ 1 := by omega
    calc nint / 2 * 2 ^ 1 ||| 128 * (nint % 2) / 2 ^ 7
        = 2 ^ 1 * (nint / 2) ||| 128 * (nint % 2) / 2 ^ 7 := by ring_nf
      _ = 2 ^ 1 * (nint / 2) + 128 * (nint % 2) / 2 ^ 7 := by
          rw [or_split_hi _ _ 1 hlt]
      _ = nint := by omega
  have hnfrac : nfrac / 2 ^ 16 % 128 * 2 ^ 16 ||| nfrac / 2 ^ 8 % 256 * 2 ^ 8 ||| nfrac % 256
      = nfrac := by
    have s1 : nfrac / 2 ^ 16 % 128 * 2 ^ 16 ||| nfrac / 2 ^ 8 % 256 * 2 ^ 8
        = 2 ^ 16 * (nfrac / 2 ^ 16 % 128) + 2 ^ 8 * (nfrac / 2 ^ 8 % 256) := by
      calc nfrac / 2 ^ 16 % 128 * 2 ^ 16 ||| nfrac / 2 ^ 8 % 256 * 2 ^ 8
          = 2 ^ 16 * (nfrac / 2 ^ 16 % 128) ||| nfrac / 2 ^ 8 % 256 * 2 ^ 8 := by ring_nf
        _ = 2 ^ 16 * (nfrac / 2 ^ 16 % 128) + nfrac / 2 ^ 8 % 256 * 2 ^ 8 := by
            rw [or_split_hi _ _ 16 (by omega)]
        _ = 2 ^ 16 * (nfrac / 2 ^ 16 % 128) + 2 ^ 8 * (nfrac / 2 ^ 8 % 256) := by ring
    rw [s1]
    have s2 : 2 ^ 16 * (nfrac / 2 ^ 16 % 128) + 2 ^ 8 * (nfrac / 2 ^ 8 % 256)
        = 2 ^ 8 * (2 ^ 8 * (nfrac / 2 ^ 16 % 128) + nfrac / 2 ^ 8 % 256) := by ring
    rw [s2, or_split_hi _ _ 8 (by omega)]
    omega
  rw [hnint, hnfrac]

/-- C8: for every 32-bit bandwidth request, the selected table entry is the
smallest of the 16 entries that is at least the request, defaulting to the
widest (28 MHz) entry when the request exceeds all thresholds; in
particular 8 MHz selects the 8.75 MHz entry and 30 MHz the 28 MHz entry. -/
theorem bandwidth_selects_smallest_entry_geq (req : Nat) (hr : req < 2 ^ 32) :
    (req ≤ 28000000 →
      req ≤ lms_bw2uint (lms_uint2bw req) ∧
      ∀ e ∈ uint_bandwidths, req ≤ e → lms_bw2uint (lms_uint2bw req) ≤ e) ∧
    (28000000 < req → lms_bw2uint (lms_uint2bw req) = 28000000) ∧
    lms_uint2bw 8000000 = 5 ∧ lms_bw2uint (lms_uint2bw 8000000) = 8750000 ∧
    lms_uint2bw 30000000 = BW_28MHz ∧ lms_bw2uint (lms_uint2bw 30000000) = 28000000 := by
  have hb0 : lms_bw2uint 0 = 28000000 := by decide
  have hb1 : lms_bw2uint 1 = 20000000 := by decide
  have hb2 : lms_bw2uint 2 = 14000000 := by decide
  have hb3 : lms_bw2uint 3 = 12000000 := by decide
  have hb4 : lms_bw2uint 4 = 10000000 := by decide
  have hb5 : lms_bw2uint 5 = 8750000 := by decide
  have hb6 : lms_bw2uint 6 = 7000000 := by decide
  have hb7 : lms_bw2uint 7 = 6000000 := by decide
  have hb8 : lms_bw2uint 8 = 5500000 := by decide
  have hb9 : lms_bw2uint 9 = 5000000 := by decide
  have hb10 : lms_bw2uint 10 = 3840000 := by decide
  have hb11 : lms_bw2uint 11 = 3000000 := by decide
  have hb12 : lms_bw2uint 12 = 2750000 := by decide
  have hb13 : lms_bw2uint 13 = 2500000 := by decide
  have hb14 : lms_bw2uint 14 = 1750000 := by decide
  have hb15 : lms_bw2uint 15 = 1500000 := by decide
  refine ⟨?_, ?_, by decide, by decide, by decide, by decide⟩
  · intro hle
    constructor
    · unfold lms_uint2bw
      by_cases h0 : req ≤ 1500000
      · rw [if_pos h0, hb15]; omega
      rw [if_neg h0]
      by_cases h1 : req ≤ 1750000
      · rw [if_pos h1, hb14]; omega
      rw [if_neg h1]
      by_cases h2 : req ≤ 2500000
      · rw [if_pos h2, hb13]; omega
      rw [if_neg h2]
      by_cases h3 : req ≤ 2750000
      · rw [if_pos h3, hb12]; omega
      rw [if_neg h3]
      by_cases h4 : req ≤ 3000000
      · rw [if_pos h4, hb11]; omega
      rw [if_neg h4]
      by_cases h5 : req ≤ 3840000
      · rw [if_pos h5, hb10]; omega
      rw [if_neg h5]
      by_cases h6 : req ≤ 5000000
      · rw [if_pos h6, hb9]; omega
      rw [if_neg h6]
      by_cases h7 : req ≤ 5500000
      · rw [if_pos h7, hb8]; omega
      rw [if_neg h7]
      by_cases h8 : req ≤ 6000000
      · rw [if_pos h8, hb7]; omega
      rw [if_neg h8]
      by_cases h9 : req ≤ 7000000
      · rw [if_pos h9, hb6]; omega
      rw [if_neg h9]
      by_cases h10 : req ≤ 8750000
      · rw [if_pos h10, hb5]; omega
      rw [if_neg h10]
      by_cases h11 : req ≤ 10000000
      · rw [if_pos h11, hb4]; omega
      rw [if_neg h11]
      by_cases h12 : req ≤ 12000000
      · rw [if_pos h12, hb3]; omega
      rw [if_neg h12]
      by_cases h13 : req ≤ 14000000
      · rw [if_pos h13, hb2]; omega
      rw [if_neg h13]
      by_cases h14 : req ≤ 20000000
      · rw [if_pos h14, hb1]; omega
      rw [if_neg h14]
      rw [hb0]; omega
    · intro e he hre
      simp only [uint_bandwidths, List.mem_cons, List.not_mem_nil, or_false] at he
      unfold lms_uint2bw
      by_cases h0 : req ≤ 1500000
      · rw [if_pos h0, hb15]
        rcases he with h | h | h | h | h | h | h | h | h | h | h | h | h | h | h | h <;> subst h <;> omega
      rw [if_neg h0]
      by_cases h1 : req ≤ 1750000
      · rw [if_pos h1, hb14]
        rcases he with h | h | h | h | h | h | h | h | h | h | h | h | h | h | h | h <;> subst h <;> omega
      rw [if_neg h1]
      by_cases h2 : req ≤ 2500000
      · rw [if_pos h2, hb13]
        rcases he with h | h | h | h | h | h | h | h | h | h | h | h | h | h | h | h <;> subst h <;> omega
      rw [if_neg h2]
      by_cases h3 : req ≤ 2750000
      · rw [if_pos h3, hb12]
        rcases he with h | h | h | h | h | h | h | h | h | h | h | h | h | h | h | h <;> subst h <;> omega
      rw [if_neg h3]
      by_cases h4 : req ≤ 3000000
      · rw [if_pos h4, hb11]
        rcases he with h | h | h | h | h | h | h | h | h | h | h | h | h | h | h | h <;> subst h <;> omega
      rw [if_neg h4]
      by_cases h5 : req ≤ 3840000
      · rw [if_pos h5, hb10]
        rcases he with h | h | h | h | h | h | h | h | h | h | h | h | h | h | h | h <;> subst h <;> omega
      rw [if_neg h5]
      by_cases h6 : req ≤ 5000000
      · rw [if_pos h6, hb9]
        rcases he with h | h | h | h | h | h | h | h | h | h | h | h | h | h | h | h <;> subst h <;> omega
      rw [if_neg h6]
      by_cases h7 : req ≤ 5500000
      · rw [if_pos h7, hb8]
        rcases he with h | h | h | h | h | h | h | h | h | h | h | h | h | h | h | h <;> subst h <;> omega
      rw [if_neg h7]
      by_cases h8 : req ≤ 6000000
      · rw [if_pos h8, hb7]
        rcases he with h | h | h | h | h | h | h | h | h | h | h | h | h | h | h | h <;> subst h <;> omega
      rw [if_neg h8]
      by_cases h9 : req ≤ 7000000
      · rw [if_pos h9, hb6]
        rcases he with h | h | h | h | h | h | h | h | h | h | h | h | h | h | h | h <;> subst h <;> omega
      rw [if_neg h9]
      by_cases h10 : req ≤ 8750000
      · rw [if_pos h10, hb5]
        rcases he with h | h | h | h | h | h | h | h | h | h | h | h | h | h | h | h <;> subst h <;> omega
      rw [if_neg h10]
      by_cases h11 : req ≤ 10000000
      · rw [if_pos h11, hb4]
        rcases he with h | h | h | h | h | h | h | h | h | h | h | h | h | h | h | h <;> subst h <;> omega
      rw [if_neg h11]
      by_cases h12 : req ≤ 12000000
      · rw [if_pos h12, hb3]
        rcases he with h | h | h | h | h | h | h | h | h | h | h | h | h | h | h | h <;> subst h <;> omega
      rw [if_neg h12]
      by_cases h13 : req ≤ 14000000
      · rw [if_pos h13, hb2]
        rcases he with h | h | h | h | h | h | h | h | h | h | h | h | h | h | h | h <;> subst h <;> omega
      rw [if_neg h13]
      by_cases h14 : req ≤ 20000000
      · rw [if_pos h14, hb1]
        rcases he with h | h | h | h | h | h | h | h | h | h | h | h | h | h | h | h <;> subst h <;> omega
      rw [if_neg h14]
      rw [hb0]
      rcases he with h | h | h | h | h | h | h | h | h | h | h | h | h | h | h | h <;> subst h <;> omega
  · intro hgt
    unfold lms_uint2bw
    rw [if_neg (show ¬ req ≤ 1500000 by omega)]
    rw [if_neg (show ¬ req ≤ 1750000 by omega)]
    rw [if_neg (show ¬ req ≤ 2500000 by omega)]
    rw [if_neg (show ¬ req ≤ 2750000 by omega)]
    rw [if_neg (show ¬ req ≤ 3000000 by omega)]
    rw [if_neg (show ¬ req ≤ 3840000 by omega)]
    rw [if_neg (show ¬ req ≤ 5000000 by omega)]
    rw [if_neg (show ¬ req ≤ 5500000 by omega)]
    rw [if_neg (show ¬ req ≤ 6000000 by omega)]
    rw [if_neg (show ¬ req ≤ 7000000 by omega)]
    rw [if_neg (show ¬ req ≤ 8750000 by omega)]
    rw [if_neg (show ¬ req ≤ 10000000 by omega)]
    rw [if_neg (show ¬ req ≤ 12000000 by omega)]
    rw [if_neg (show ¬ req ≤ 14000000 by omega)]
    rw [if_neg (show ¬ req ≤ 20000000 by omega)]
    exact hb0

/-- For every in-range frequency the band search returns a table value whose
derived VCO divider x = 2^((freqsel & 7) - 3) lies in {2,4,8,16} and keeps
the VCO frequency x * freq at or below 7.6 GHz (the last band's top end). -/
theorem freqsel_band_facts (freq : Nat) (h1 : BLADERF_FREQUENCY_MIN ≤ freq)
    (h2 : freq ≤ BLADERF_FREQUENCY_MAX) :
    2 ≤ 2 ^ ((freqselOf freq &&& 7) - 3) ∧ 2 ^ ((freqselOf freq &&& 7) - 3) ≤ 16 ∧
    2 ^ ((freqselOf freq &&& 7) - 3) * freq ≤ 7600000000 := by
  unfold BLADERF_FREQUENCY_MIN at h1
  unfold BLADERF_FREQUENCY_MAX at h2
  simp only [freqselOf, bands, BLADERF_FREQUENCY_MIN, BLADERF_FREQUENCY_MAX, freqsel_search]
  by_cases c0 : 237500000 ≤ freq ∧ freq ≤ 285625000
  · rw [if_pos c0]
    refine ⟨by decide, by decide, ?_⟩
    rw [show (2:Nat) ^ ((39 &&& 7) - 3) = 16 from by decide]
    omega
  rw [if_neg c0]
  by_cases c1 : 285625000 ≤ freq ∧ freq ≤ 336875000
  · rw [if_pos c1]
    refine ⟨by decide, by decide, ?_⟩
    rw [show (2:Nat) ^ ((47 &&& 7) - 3) = 16 from by decide]
    omega
  rw [if_neg c1]
  by_cases c2 : 336875000 ≤ freq ∧ freq ≤ 405000000
  · rw [if_pos c2]
    refine ⟨by decide, by decide, ?_⟩
    rw [show (2:Nat) ^ ((55 &&& 7) - 3) = 16 from by decide]
    omega
  rw [if_neg c2]
  by_cases c3 : 405000000 ≤ freq ∧ freq ≤ 465000000
  · rw [if_pos c3]
    refine ⟨by decide, by decide, ?_⟩
    rw [show (2:Nat) ^ ((63 &&& 7) - 3) = 16 from by decide]
    omega
  rw [if_neg c3]
  by_cases c4 : 465000000 ≤ freq ∧ freq ≤ 571250000
  · rw [if_pos c4]
    refine ⟨by decide, by decide, ?_⟩
    rw [show (2:Nat) ^ ((38 &&& 7) - 3) = 8 from by decide]
    omega
  rw [if_neg c4]
  by_cases c5 : 571250000 ≤ freq ∧ freq ≤ 673750000
  · rw [if_pos c5]
    refine ⟨by decide, by decide, ?_⟩
    rw [show (2:Nat) ^ ((46 &&& 7) - 3) = 8 from by decide]
    omega
  rw [if_neg c5]
  by_cases c6 : 673750000 ≤ freq ∧ freq ≤ 810000000
  · rw [if_pos c6]
    refine ⟨by decide, by decide, ?_⟩
    rw [show (2:Nat) ^ ((54 &&& 7) - 3) = 8 from by decide]
    omega
  rw [if_neg c6]
  by_cases c7 : 810000000 ≤ freq ∧ freq ≤ 930000000
  · rw [if_pos c7]
    refine ⟨by decide, by decide, ?_⟩
    rw [show (2:Nat) ^ ((62 &&& 7) - 3) = 8 from by decide]
    omega
  rw [if_neg c7]
  by_cases c8 : 930000000 ≤ freq ∧ freq ≤ 1142500000
  · rw [if_pos c8]
    refine ⟨by decide, by decide, ?_⟩
    rw [show (2:Nat) ^ ((37 &&& 7) - 3) = 4 from by decide]
    omega
  rw [if_neg c8]
  by_cases c9 : 1142500000 ≤ freq ∧ freq ≤ 1347500000
  · rw [if_pos c9]
    refine ⟨by decide, by decide, ?_⟩
    rw [show (2:Nat) ^ ((45 &&& 7) - 3) = 4 from by decide]
    omega
  rw [if_neg c9]
  by_cases c10 : 1347500000 ≤ freq ∧ freq ≤ 1620000000
  · rw [if_pos c10]
    refine ⟨by decide, by decide, ?_⟩
    rw [show (2:Nat) ^ ((53 &&& 7) - 3) = 4 from by decide]
    omega
  rw [if_neg c10]
  by_cases c11 : 1620000000 ≤ freq ∧ freq ≤ 1860000000
  · rw [if_pos c11]
    refine ⟨by decide, by decide, ?_⟩
    rw [show (2:Nat) ^ ((61 &&& 7) - 3) = 4 from by decide]
    omega
  rw [if_neg c11]
  by_cases c12 : 1860000000 ≤ freq ∧ freq ≤ 2285000000
  · rw [if_pos c12]
    refine ⟨by decide, by decide, ?_⟩
    rw [show (2:Nat) ^ ((36 &&& 7) - 3) = 2 from by decide]
    omega
  rw [if_neg c12]
  by_cases c13 : 2285000000 ≤ freq ∧ freq ≤ 2695000000
  · rw [if_pos c13]
    refine ⟨by decide, by decide, ?_⟩
    rw [show (2:Nat) ^ ((44 &&& 7) - 3) = 2 from by decide]
    omega
  rw [if_neg c13]
  by_cases c14 : 2695000000 ≤ freq ∧ freq ≤ 3240000000
  · rw [if_pos c14]
    refine ⟨by decide, by decide, ?_⟩
    rw [show (2:Nat) ^ ((52 &&& 7) - 3) = 2 from by decide]
    omega
  rw [if_neg c14]
  by_cases c15 : 3240000000 ≤ freq ∧ freq ≤ 3800000000
  · rw [if_pos c15]
    refine ⟨by decide, by decide, ?_⟩
    rw [show (2:Nat) ^ ((60 &&& 7) - 3) = 2 from by decide]
    omega
  rw [if_neg c15]
  exfalso; omega

/-- Arithmetic core of the frequency round trip: with n = x * freq the
fractional rounding and the biased division of lms_frequency_to_hz recover
freq to within (2^22 + ref/2) / (x * 2^23) < x * ref / 2^23 Hz. -/
theorem pll_roundtrip_core (x freq n : Nat) (hx1 : 1 ≤ x)
    (hn : x * freq = n) (hB : n ≤ 7600000000) :
    (((38400000 * ((n / 38400000) * 2 ^ 23
         + (2 ^ 23 * (n % 38400000) + 19200000) / 38400000) + x * 2 ^ 22)
        / (x * 2 ^ 23) : Int) - freq).natAbs * 2 ^ 23 ≤ x * 38400000 := by
  have hq : n / 38400000 ≤ 197 := by omega
  have hr : n % 38400000 < 38400000 := by omega
  set nfrac := (2 ^ 23 * (n % 38400000) + 19200000) / 38400000 with hnfrac
  set A := 38400000 * ((n / 38400000) * 2 ^ 23 + nfrac) + x * 2 ^ 22 with hA
  have hD : 0 < x * 2 ^ 23 := by positivity
  have hdm : (x * 2 ^ 23) * (A / (x * 2 ^ 23)) + A % (x * 2 ^ 23) = A :=
    Nat.div_add_mod A (x * 2 ^ 23)
  have hs : A % (x * 2 ^ 23) < x * 2 ^ 23 := Nat.mod_lt _ hD
  set hz := A / (x * 2 ^ 23) with hhz
  set P := (x * 2 ^ 23) * hz with hP
  set s := A % (x * 2 ^ 23) with hsdef
  have hup : P ≤ 2 ^ 23 * n + x * 2 ^ 22 + 19200000 := by omega
  have hlow : 2 ^ 23 * n ≤ P + x * 2 ^ 22 + 19200000 := by omega
  have hcast : ((hz : Int) - freq) * (2 ^ 23 * x) = (P : Int) - 2 ^ 23 * n := by
    rw [hP, ← hn]
    push_cast
    ring
  have habs : |(hz : Int) - freq| * (2 ^ 23 * x) ≤ (x : Int) * 2 ^ 22 + 19200000 := by
    rcases abs_cases ((hz : Int) - freq) with ⟨he, _⟩ | ⟨he, _⟩ <;> rw [he]
    · rw [hcast]
      have h1 : (P : Int) ≤ 2 ^ 23 * n + x * 2 ^ 22 + 19200000 := by exact_mod_cast hup
      linarith
    · have h2 : ((hz : Int) - freq) * (2 ^ 23 * x) = (P : Int) - 2 ^ 23 * n := hcast
      have h3 : (2 ^ 23 * n : Int) ≤ P + x * 2 ^ 22 + 19200000 := by exact_mod_cast hlow
      nlinarith
  have hxpos : (0 : Int) < x := by exact_mod_cast hx1
  have habs2 : |(hz : Int) - freq| * 2 ^ 23 ≤ 2 ^ 22 + 19200000 := by
    have hstep : |(hz : Int) - freq| * (2 ^ 23 * x) ≤ ((2 ^ 22 + 19200000) : Int) * x := by
      nlinarith
    have hform : (|(hz : Int) - freq| * 2 ^ 23) * x ≤ ((2 ^ 22 + 19200000) : Int) * x := by
      calc (|(hz : Int) - freq| * 2 ^ 23) * x = |(hz : Int) - freq| * (2 ^ 23 * x) := by ring
        _ ≤ ((2 ^ 22 + 19200000) : Int) * x := hstep
    exact le_of_mul_le_mul_right hform hxpos
  have hfinal : (((hz : Int) - freq).natAbs : Int) * 2 ^ 23 ≤ (x : Int) * 38400000 := by
    rw [Int.natCast_natAbs]
    calc |(hz : Int) - freq| * 2 ^ 23 ≤ 2 ^ 22 + 19200000 := habs2
      _ ≤ (x : Int) * 38400000 := by nlinarith
  exact_mod_cast hfinal

/-- C3: for every frequency in the supported range, converting to a PLL
descriptor via lms_set_frequency's math and back via lms_frequency_to_hz
differs from the input by at most x * reference / 2^23 Hz (stated
multiplied out: |back - f| * 2^23 <= x * reference). -/
theorem frequency_roundtrip_error_bound (freq : Nat)
    (h1 : BLADERF_FREQUENCY_MIN ≤ freq) (h2 : freq ≤ BLADERF_FREQUENCY_MAX) :
    ((lms_frequency_to_hz (lms_freq_params freq) : Int) - (freq : Int)).natAbs * 2 ^ 23
      ≤ (lms_freq_params freq).x * (lms_freq_params freq).reference := by
  have hclamp : clamp_frequency freq = freq := by
    unfold clamp_frequency BLADERF_FREQUENCY_MIN BLADERF_FREQUENCY_MAX at *
    rw [if_neg (by omega), if_neg (by omega)]
  obtain ⟨hx2, hx16, hB⟩ := freqsel_band_facts freq h1 h2
  simp only [lms_frequency_to_hz, lms_freq_params, lms_ref_clock, hclamp]
  set x := 2 ^ ((freqselOf freq &&& 7) - 3) with hxdef
  set n := x * freq with hndef
  have e0 : x % 2 ^ 8 = x := by omega
  simp only [e0]
  set q := n / 38400000 with hqdef
  have e1 : q % 2 ^ 16 = q := by omega
  simp only [e1]
  have e2 : n - q * 38400000 = n % 38400000 := by omega
  simp only [e2]
  set nf := (2 ^ 23 * (n % 38400000) + 19200000) / 38400000 with hnfdef
  have e3 : nf % 2 ^ 32 = nf := by omega
  simp only [e3]
  have e4 : (q * 2 ^ 23 + nf) % 2 ^ 64 = q * 2 ^ 23 + nf := by omega
  simp only [e4]
  have e5 : 38400000 * (q * 2 ^ 23 + nf) % 2 ^ 64 = 38400000 * (q * 2 ^ 23 + nf) := by
    omega
  simp only [e5]
  have e6 : x * 2 ^ 23 % 2 ^ 32 = x * 2 ^ 23 := by omega
  simp only [e6]
  have e7 : x * 2 ^ 23 / 2 = x * 2 ^ 22 := by omega
  simp only [e7]
  have e8 : (38400000 * (q * 2 ^ 23 + nf) + x * 2 ^ 22) % 2 ^ 64
      = 38400000 * (q * 2 ^ 23 + nf) + x * 2 ^ 22 := by omega
  simp only [e8]
  have e9 : (38400000 * (q * 2 ^ 23 + nf) + x * 2 ^ 22) / (x * 2 ^ 23) % 2 ^ 32
      = (38400000 * (q * 2 ^ 23 + nf) + x * 2 ^ 22) / (x * 2 ^ 23) := by
    apply Nat.mod_eq_of_lt
    have hpos : 0 < x * 2 ^ 23 := by positivity
    have hlt : 38400000 * (q * 2 ^ 23 + nf) + x * 2 ^ 22 < 2 ^ 32 * (x * 2 ^ 23) := by
      omega
    exact (Nat.div_lt_iff_lt_mul hpos).2 hlt
  simp only [e9]
  rw [hqdef, hnfdef]
  exact pll_roundtrip_core x freq n (by omega) hndef.symm (by omega)

/-- Witness for C3 at 1 GHz. -/
theorem frequency_roundtrip_error_bound_witness :
    BLADERF_FREQUENCY_MIN ≤ 1000000000 ∧ 1000000000 ≤ BLADERF_FREQUENCY_MAX ∧
    ((lms_frequency_to_hz (lms_freq_params 1000000000) : Int) - (1000000000 : Int)).natAbs
        * 2 ^ 23
      ≤ (lms_freq_params 1000000000).x * (lms_freq_params 1000000000).reference :=
  ⟨by decide, by decide,
   frequency_roundtrip_error_bound 1000000000 (by decide) (by decide)⟩

/-- Witness for C8 at an 8 MHz request. -/
theorem bandwidth_selects_smallest_entry_geq_witness :
    8000000 < 2 ^ 32 ∧
    ((8000000 ≤ 28000000 →
      8000000 ≤ lms_bw2uint (lms_uint2bw 8000000) ∧
      ∀ e ∈ uint_bandwidths, 8000000 ≤ e → lms_bw2uint (lms_uint2bw 8000000) ≤ e) ∧
    (28000000 < 8000000 → lms_bw2uint (lms_uint2bw 8000000) = 28000000) ∧
    lms_uint2bw 8000000 = 5 ∧ lms_bw2uint (lms_uint2bw 8000000) = 8750000 ∧
    lms_uint2bw 30000000 = BW_28MHz ∧ lms_bw2uint (lms_uint2bw 30000000) = 28000000) :=
  ⟨by decide, bandwidth_selects_smallest_entry_geq 8000000 (by decide)⟩

/-- Witness for C10 at nint = 511, nfrac = 2^23 - 1. -/
theorem get_frequency_inverts_set_frequency_packing_witness :
    511 < 2 ^ 9 ∧ 8388607 < 2 ^ 23 ∧
    (fun p => gf_unpack_nint_nfrac p.1 p.2.1 p.2.2.1 p.2.2.2)
      (sf_pack_nint_nfrac 511 8388607) = (511, 8388607) :=
  ⟨by decide, by decide,
   get_frequency_inverts_set_frequency_packing 511 8388607 (by decide) (by decide)⟩

/-- C2 counterexample: with both reads succeeding and the raw bits
decoding to enabled-and-bypassed (0x54 reads 2, 0x55 reads 0x40), the
code returns BLADERF_ERR_INVAL (the spec's InvalidArgument), not the
claimed UnexpectedState (BLADERF_ERR_UNEXPECTED). -/
theorem lpf_get_mode_invalid_combo_not_unexpected :
    (lms_lpf_get_mode
      (devNoFault (fun a => if a = 0x54 then 2 else if a = 0x55 then 0x40 else 0))
      LmsModule.rx).1 = BLADERF_ERR_INVAL ∧
    (lms_lpf_get_mode
      (devNoFault (fun a => if a = 0x54 then 2 else if a = 0x55 then 0x40 else 0))
      LmsModule.rx).1 ≠ BLADERF_ERR_UNEXPECTED := by
  constructor
  · decide
  · decide

/-- C2 (amended): for every module, when both LPF register reads succeed,
the combination enabled-and-bypassed yields BLADERF_ERR_INVAL and the
three other combinations yield the corresponding mode with status 0. -/
theorem lpf_get_mode_cases (d : Dev) (m : LmsModule)
    (hf : ∀ i, d.faults i = 0) :
    ((d.readFn d.idx (if m = LmsModule.rx then 0x54 else 0x34) d.regs % 256) &&& 2 ≠ 0 →
     (d.readFn (d.idx + 1) ((if m = LmsModule.rx then 0x54 else 0x34) + 1) d.regs % 256) &&& 64 ≠ 0 →
      (lms_lpf_get_mode d m).1 = BLADERF_ERR_INVAL ∧
      (lms_lpf_get_mode d m).2.1 = Option.none) ∧
    ((d.readFn d.idx (if m = LmsModule.rx then 0x54 else 0x34) d.regs % 256) &&& 2 ≠ 0 →
     (d.readFn (d.idx + 1) ((if m = LmsModule.rx then 0x54 else 0x34) + 1) d.regs % 256) &&& 64 = 0 →
      (lms_lpf_get_mode d m).1 = 0 ∧
      (lms_lpf_get_mode d m).2.1 = some LpfMode.normal) ∧
    ((d.readFn d.idx (if m = LmsModule.rx then 0x54 else 0x34) d.regs % 256) &&& 2 = 0 →
     (d.readFn (d.idx + 1) ((if m = LmsModule.rx then 0x54 else 0x34) + 1) d.regs % 256) &&& 64 ≠ 0 →
      (lms_lpf_get_mode d m).1 = 0 ∧
      (lms_lpf_get_mode d m).2.1 = some LpfMode.bypassed) ∧
    ((d.readFn d.idx (if m = LmsModule.rx then 0x54 else 0x34) d.regs % 256) &&& 2 = 0 →
     (d.readFn (d.idx + 1) ((if m = LmsModule.rx then 0x54 else 0x34) + 1) d.regs % 256) &&& 64 = 0 →
      (lms_lpf_get_mode d m).1 = 0 ∧
      (lms_lpf_get_mode d m).2.1 = some LpfMode.disabled) := by
  refine ⟨?_, ?_, ?_, ?_⟩ <;> intro h1 h2 <;>
    simp [lms_lpf_get_mode, LMS_READ, Dev.bump, hf, lms_lpf_get_mode_decode, h1, h2]

/-- Witness for the amended C2 theorem on a concrete enabled, not-bypassed
device (normal mode). -/
theorem lpf_get_mode_cases_witness :
    (∀ i, (devNoFault (fun a => if a = 0x54 then 2 else 0)).faults i = 0) ∧
    ((lms_lpf_get_mode (devNoFault (fun a => if a = 0x54 then 2 else 0)) LmsModule.rx).1 = 0 ∧
     (lms_lpf_get_mode (devNoFault (fun a => if a = 0x54 then 2 else 0))
        LmsModule.rx).2.1 = some LpfMode.normal) :=
  ⟨fun _ => rfl,
   (lpf_get_mode_cases (devNoFault (fun a => if a = 0x54 then 2 else 0)) LmsModule.rx
      (fun _ => rfl)).2.1 (by decide) (by decide)⟩

/-- A successful read returns status 0, the oracle byte, and the bumped
device. -/
theorem LMS_READ_ok (d : Dev) (a : Nat) (hf : d.faults d.idx = 0) :
    LMS_READ d a = (0, d.readFn d.idx a d.regs % 2 ^ 8, d.bump) := by
  unfold LMS_READ
  rw [hf]
  simp

/-- A successful write returns status 0 and stores the byte. -/
theorem LMS_WRITE_ok (d : Dev) (a v : Nat) (hf : d.faults d.idx = 0) :
    (LMS_WRITE d a v).1 = 0 ∧ (LMS_WRITE d a v).2.regs a = v % 2 ^ 8 ∧
    (LMS_WRITE d a v).2.faults = d.faults ∧ (LMS_WRITE d a v).2.idx = d.idx + 1 ∧
    (LMS_WRITE d a v).2.readFn = d.readFn ∧
    (∀ y, y ≠ a → (LMS_WRITE d a v).2.regs y = d.regs y) := by
  unfold LMS_WRITE
  rw [hf]
  refine ⟨by simp, by simp, by simp, by simp, by simp, ?_⟩
  intro y hy
  simp [hy]

/-- C9 counterexample: the claim says the set operation returns the
effective (clamped) gain; requesting 100 dB on RXVGA1 clamps to 30 dB,
yet the function returns 0 (the transaction status), not 30. -/
theorem rxvga1_set_gain_returns_status_not_gain :
    (lms_rxvga1_set_gain (devNoFault (fun _ => 0)) 100).1 = 0 ∧
    (lms_rxvga1_set_gain (devNoFault (fun _ => 0)) 100).1 ≠ 30 := by
  have h : (lms_rxvga1_set_gain (devNoFault (fun _ => 0)) 100).1 = 0 := by
    exact (LMS_WRITE_ok (devNoFault (fun _ => 0)) 0x76 _ rfl).1
  refine ⟨h, by rw [h]; decide⟩

/-- C9 (amended): out-of-range gains are clamped to the documented
boundary and the boundary code is written; clamping is never an error
(the status is 0 whenever the transactions succeed); but the function
returns only that status, never the effective gain. -/
theorem set_gain_clamps_without_error (d : Dev) (g : Int)
    (hf : ∀ i, d.faults i = 0) :
    ((lms_rxvga1_set_gain d g).1 = 0 ∧
     (g > 30 → (lms_rxvga1_set_gain d g).2.regs 0x76 = 120) ∧
     (g < 5 → (lms_rxvga1_set_gain d g).2.regs 0x76 = 2) ∧
     (5 ≤ g → g ≤ 30 →
       (lms_rxvga1_set_gain d g).2.regs 0x76 = rxvga1_lut_val2code.getD g.toNat 0)) ∧
    ((lms_txvga2_set_gain d g).1 = 0 ∧
     (g > 25 → ((lms_txvga2_set_gain d g).2.regs 0x45 >>> 3) &&& 0x1f = 25) ∧
     (g < 0 → ((lms_txvga2_set_gain d g).2.regs 0x45 >>> 3) &&& 0x1f = 0) ∧
     (0 ≤ g → g ≤ 25 →
       ((lms_txvga2_set_gain d g).2.regs 0x45 >>> 3) &&& 0x1f = g.toNat)) := by
  have hlut : ∀ k : Fin 31,
      rxvga1_lut_val2code.getD k.1 0 % 2 ^ 8 = rxvga1_lut_val2code.getD k.1 0 := by decide
  have hcode : ∀ v : Fin 256, ∀ gn : Fin 32,
      ((((v.1 &&& ((0x1f <<< 3) ^^^ 255)) ||| ((gn.1 &&& 0x1f) <<< 3)) % 2 ^ 8) >>> 3) &&& 0x1f
        = gn.1 := by decide
  constructor
  · have e0 : lms_rxvga1_set_gain d g = LMS_WRITE d 0x76
        (rxvga1_lut_val2code.getD
          (if g > 30 then (30 : Int) else if g < 5 then 5 else g).toNat 0) := rfl
    rw [e0]
    obtain ⟨hs, hreg, -, -, -, -⟩ := LMS_WRITE_ok d 0x76
      (rxvga1_lut_val2code.getD
        (if g > 30 then (30 : Int) else if g < 5 then 5 else g).toNat 0) (hf d.idx)
    refine ⟨hs, ?_, ?_, ?_⟩
    · intro hg
      rw [hreg, if_pos hg]
      decide
    · intro hg
      rw [hreg, if_neg (by omega), if_pos hg]
      decide
    · intro hg1 hg2
      rw [hreg, if_neg (by omega), if_neg (by omega)]
      simpa using hlut ⟨g.toNat, by omega⟩
  · have e1 : lms_txvga2_set_gain d g = LMS_WRITE d.bump 0x45
        (((d.readFn d.idx 0x45 d.regs % 2 ^ 8) &&& ((0x1f <<< 3) ^^^ 255)) |||
         (((if g > 25 then (25 : Int) else if g < 0 then 0 else g).toNat &&& 0x1f) <<< 3)) := by
      unfold lms_txvga2_set_gain
      rw [LMS_READ_ok d 0x45 (hf d.idx)]
      rfl
    rw [e1]
    obtain ⟨hs, hreg, -, -, -, -⟩ := LMS_WRITE_ok d.bump 0x45
      (((d.readFn d.idx 0x45 d.regs % 2 ^ 8) &&& ((0x1f <<< 3) ^^^ 255)) |||
       (((if g > 25 then (25 : Int) else if g < 0 then 0 else g).toNat &&& 0x1f) <<< 3))
      (hf (d.idx + 1))
    refine ⟨hs, ?_, ?_, ?_⟩
    · intro hg
      rw [hreg, if_pos hg]
      exact hcode ⟨d.readFn d.idx 0x45 d.regs % 2 ^ 8, by omega⟩ ⟨(25 : Int).toNat, by omega⟩
    · intro hg
      rw [hreg, if_neg (by omega), if_pos hg]
      exact hcode ⟨d.readFn d.idx 0x45 d.regs % 2 ^ 8, by omega⟩ ⟨(0 : Int).toNat, by omega⟩
    · intro hg1 hg2
      rw [hreg, if_neg (by omega), if_neg (by omega)]
      exact hcode ⟨d.readFn d.idx 0x45 d.regs % 2 ^ 8, by omega⟩ ⟨g.toNat, by omega⟩

/-- Witness for the amended C9 theorem on a zeroed fault-free device. -/
theorem set_gain_clamps_without_error_witness :
    (∀ i, (devNoFault (fun _ => 0)).faults i = 0) ∧
    (lms_rxvga1_set_gain (devNoFault (fun _ => 0)) 100).2.regs 0x76 = 120 ∧
    ((lms_txvga2_set_gain (devNoFault (fun _ => 0)) (-7)).2.regs 0x45 >>> 3) &&& 0x1f = 0 :=
  ⟨fun _ => rfl,
   (set_gain_clamps_without_error (devNoFault (fun _ => 0)) 100 (fun _ => rfl)).1.2.1
     (by decide),
   (set_gain_clamps_without_error (devNoFault (fun _ => 0)) (-7) (fun _ => rfl)).2.2.2.1
     (by decide)⟩

/-- C5 counterexample: the register pair r46 = 0x04, r08 = 0x25 lies
outside the 8 valid encodings (its 0x08 low bits are not any mode's
image), yet get-loopback decodes it as the TXLPF-to-RXVGA2 baseband mode,
not as None. -/
theorem loopback_decode_aliases_outside_encodings :
    lms_get_loopback_mode_decode 0x25 0x04 = Loopback.bbTxlpfRxvga2 ∧
    lms_get_loopback_mode_decode 0x25 0x04 ≠ Loopback.lbNone ∧
    ¬ is_valid_loopback_encoding 0x04 0x25 := by
  refine ⟨by decide, by decide, by decide⟩

theorem lbf_none_7 (x : Nat) (h : x < 256) :
    (x &&& ((0xf ||| 0x70) ^^^ 255)) &&& 7 = 0 := by
  have hF : ∀ y : Fin 256, (y.1 &&& ((0xf ||| 0x70) ^^^ 255)) &&& 7 = 0 := by decide
  exact hF ⟨x, h⟩

theorem lbf_none_70 (x : Nat) (h : x < 256) :
    (x &&& ((0xf ||| 0x70) ^^^ 255)) &&& 0x70 = 0 := by
  have hF : ∀ y : Fin 256, (y.1 &&& ((0xf ||| 0x70) ^^^ 255)) &&& 0x70 = 0 := by decide
  exact hF ⟨x, h⟩

theorem lbf_or_7 (x k : Nat) (h : x < 256) (hk : k < 8) :
    (x &&& ((0xf ||| 0x70) ^^^ 255) ||| k) &&& 7 = k := by
  have hF : ∀ y : Fin 256, ∀ z : Fin 8,
      (y.1 &&& ((0xf ||| 0x70) ^^^ 255) ||| z.1) &&& 7 = z.1 := by decide
  exact hF ⟨x, h⟩ ⟨k, hk⟩

theorem lbf_or32_7 (x : Nat) (h : x < 256) :
    (x &&& ((0xf ||| 0x70) ^^^ 255) ||| 32) &&& 7 = 0 := by
  have hF : ∀ y : Fin 256, (y.1 &&& ((0xf ||| 0x70) ^^^ 255) ||| 32) &&& 7 = 0 := by decide
  exact hF ⟨x, h⟩

theorem lbf_or32_70 (x : Nat) (h : x < 256) :
    (x &&& ((0xf ||| 0x70) ^^^ 255) ||| 32) &&& 0x70 = 32 := by
  have hF : ∀ y : Fin 256, (y.1 &&& ((0xf ||| 0x70) ^^^ 255) ||| 32) &&& 0x70 = 32 := by decide
  exact hF ⟨x, h⟩

theorem lbf_or64_7 (x : Nat) (h : x < 256) :
    (x &&& ((0xf ||| 0x70) ^^^ 255) ||| 64) &&& 7 = 0 := by
  have hF : ∀ y : Fin 256, (y.1 &&& ((0xf ||| 0x70) ^^^ 255) ||| 64) &&& 7 = 0 := by decide
  exact hF ⟨x, h⟩

theorem lbf_or64_70 (x : Nat) (h : x < 256) :
    (x &&& ((0xf ||| 0x70) ^^^ 255) ||| 64) &&& 0x70 = 64 := by
  have hF : ∀ y : Fin 256, (y.1 &&& ((0xf ||| 0x70) ^^^ 255) ||| 64) &&& 0x70 = 64 := by decide
  exact hF ⟨x, h⟩

theorem bbf_none_4 (x : Nat) (h : x < 256) : (x &&& (12 ^^^ 255)) &&& 4 = 0 := by
  have hF : ∀ y : Fin 256, (y.1 &&& (12 ^^^ 255)) &&& 4 = 0 := by decide
  exact hF ⟨x, h⟩

theorem bbf_none_8 (x : Nat) (h : x < 256) : (x &&& (12 ^^^ 255)) &&& 8 = 0 := by
  have hF : ∀ y : Fin 256, (y.1 &&& (12 ^^^ 255)) &&& 8 = 0 := by decide
  exact hF ⟨x, h⟩

theorem bbf_or4_4 (x : Nat) (h : x < 256) : (x &&& (12 ^^^ 255) ||| 4) &&& 4 = 4 := by
  have hF : ∀ y : Fin 256, (y.1 &&& (12 ^^^ 255) ||| 4) &&& 4 = 4 := by decide
  exact hF ⟨x, h⟩

theorem bbf_or8_4 (x : Nat) (h : x < 256) : (x &&& (12 ^^^ 255) ||| 8) &&& 4 = 0 := by
  have hF : ∀ y : Fin 256, (y.1 &&& (12 ^^^ 255) ||| 8) &&& 4 = 0 := by decide
  exact hF ⟨x, h⟩

theorem bbf_or8_8 (x : Nat) (h : x < 256) : (x &&& (12 ^^^ 255) ||| 8) &&& 8 = 8 := by
  have hF : ∀ y : Fin 256, (y.1 &&& (12 ^^^ 255) ||| 8) &&& 8 = 8 := by decide
  exact hF ⟨x, h⟩

/-- C5 (amended): for each of the 8 modes and any prior register
contents, programming the mode via loopback_path and decoding the
resulting registers returns the same mode; and get-loopback decodes a
register pair as None exactly when the RF-loop field holds none of the
LNA codes 1-3 and the baseband destination field is not VGA2-in or
LPF-in with a TXLPF or TXVGA source bit set. -/
theorem loopback_roundtrip_and_none_decode :
    (∀ m : Loopback, ∀ r46 r08 : Nat, r46 < 256 → r08 < 256 →
      lms_get_loopback_mode_decode (loopback_path_regs m r46 r08).2
        (loopback_path_regs m r46 r08).1 = m) ∧
    (∀ r46 r08 : Nat, r46 < 256 → r08 < 256 →
      (lms_get_loopback_mode_decode r08 r46 = Loopback.lbNone ↔
        ¬ ((r08 &&& 7 = 1 ∨ r08 &&& 7 = 2 ∨ r08 &&& 7 = 3) ∨
           ((r08 &&& 0x70 = 32 ∨ r08 &&& 0x70 = 64) ∧
            (r46 &&& 4 ≠ 0 ∨ r46 &&& 8 ≠ 0))))) := by
  constructor
  · intro m r46 r08 h1 h2
    cases m <;> simp only [loopback_path_regs, lms_get_loopback_mode_decode]
    · rw [lbf_or32_7 r08 h2, lbf_or32_70 r08 h2, bbf_or4_4 r46 h1]
      norm_num
    · rw [lbf_or64_7 r08 h2, lbf_or64_70 r08 h2, bbf_or4_4 r46 h1]
      norm_num
    · simp only [lbf_or32_7 r08 h2, lbf_or32_70 r08 h2, bbf_or8_4 r46 h1, bbf_or8_8 r46 h1]
      norm_num
    · simp only [lbf_or64_7 r08 h2, lbf_or64_70 r08 h2, bbf_or8_4 r46 h1, bbf_or8_8 r46 h1]
      norm_num
    · rw [lbf_or_7 r08 1 h2 (by norm_num)]
      norm_num
    · rw [lbf_or_7 r08 2 h2 (by norm_num)]
      norm_num
    · rw [lbf_or_7 r08 3 h2 (by norm_num)]
      norm_num
    · rw [lbf_none_7 r08 h2, lbf_none_70 r08 h2]
      norm_num
  · intro r46 r08 h1 h2
    unfold lms_get_loopback_mode_decode
    split_ifs <;> simp_all

/-- Witness for the amended C5 theorem: the RF LNA2 mode round-trips from
arbitrary initial register bytes 0xff/0xff. -/
theorem loopback_roundtrip_and_none_decode_witness :
    lms_get_loopback_mode_decode (loopback_path_regs Loopback.rfLna2 0xff 0xff).2
      (loopback_path_regs Loopback.rfLna2 0xff 0xff).1 = Loopback.rfLna2 :=
  loopback_roundtrip_and_none_decode.1 Loopback.rfLna2 0xff 0xff (by decide) (by decide)


theorem dsm_off_clears_bits (d2 : Dev) (hok : (sf_dsm_off d2).1 = 0) :
    (sf_dsm_off d2).2.regs 0x09 &&& 0x05 = 0 := by
  have hbits : ∀ v : Fin 256, ((v.1 &&& (0x05 ^^^ 255)) % 2 ^ 8) &&& 0x05 = 0 := by decide
  by_cases hf1 : d2.faults d2.idx = 0
  · have hE : sf_dsm_off d2 = LMS_WRITE d2.bump 0x09
        ((d2.readFn d2.idx 0x09 d2.regs % 2 ^ 8) &&& (0x05 ^^^ 255)) := by
      unfold sf_dsm_off
      rw [LMS_READ_ok d2 0x09 hf1]
      dsimp only
      rw [if_neg (by norm_num : ¬ (0 : Int) ≠ 0)]
    rw [hE] at hok ⊢
    by_cases hf2 : d2.faults (d2.idx + 1) = 0
    · obtain ⟨-, hreg, -, -, -, -⟩ := LMS_WRITE_ok d2.bump 0x09
        ((d2.readFn d2.idx 0x09 d2.regs % 2 ^ 8) &&& (0x05 ^^^ 255)) hf2
      rw [hreg]
      exact hbits ⟨d2.readFn d2.idx 0x09 d2.regs % 2 ^ 8, by omega⟩
    · exfalso
      have hf2b : d2.bump.faults d2.bump.idx ≠ 0 := hf2
      have hw : (LMS_WRITE d2.bump 0x09
          ((d2.readFn d2.idx 0x09 d2.regs % 2 ^ 8) &&& (0x05 ^^^ 255))).1
            = d2.faults (d2.idx + 1) := by
        unfold LMS_WRITE
        rw [if_pos hf2b]
        rfl
      rw [hw] at hok
      exact hf2 hok
  · exfalso
    have hr : (sf_dsm_off d2).1 = d2.faults d2.idx := by
      unfold sf_dsm_off LMS_READ
      rw [if_pos hf1]
      dsimp only
      rw [if_pos hf1]
    rw [hr] at hok
    exact hf1 hok

/-- C6: once the DSM enable (step 5) has succeeded, every path of steps
(6)-(9) funnels through the DSM disable before lms_set_frequency
returns: the final device is the one produced by sf_dsm_off on the
body's end state, a body error is reported as the result, the cleanup's
own status is reported only when the body succeeded, and whenever the
cleanup succeeds both DSM enable bits of register 0x09 are clear in the
final state. -/
theorem set_frequency_dsm_cleanup (d : Dev) (m : LmsModule) (freq : Nat)
    (h5 : (sf_step5_dsm_on d).1 = 0) :
    ∀ sb d2, sf_body (sf_step5_dsm_on d).2 m freq = (sb, d2) →
      (lms_set_frequency d m freq).2 = (sf_dsm_off d2).2 ∧
      (sb ≠ 0 → (lms_set_frequency d m freq).1 = sb) ∧
      (sb = 0 → (lms_set_frequency d m freq).1 = (sf_dsm_off d2).1) ∧
      ((sf_dsm_off d2).1 = 0 →
        (lms_set_frequency d m freq).2.regs 0x09 &&& 0x05 = 0) := by
  intro sb d2 hbody
  rcases hE : sf_step5_dsm_on d with ⟨s5, d1⟩
  rw [hE] at h5 hbody
  dsimp only at h5 hbody
  subst h5
  have hmain : lms_set_frequency d m freq
      = (if sb = 0 then (sf_dsm_off d2).1 else sb, (sf_dsm_off d2).2) := by
    unfold lms_set_frequency
    rw [hE]
    dsimp only
    rw [if_neg (by norm_num : ¬ (0 : Int) ≠ 0), hbody]
  refine ⟨by rw [hmain], ?_, ?_, ?_⟩
  · intro hsb
    rw [hmain]
    simp [hsb]
  · intro hsb
    rw [hmain]
    simp [hsb]
  · intro hok
    rw [hmain]
    exact dsm_off_clears_bits d2 hok

/-- Witness for C6 on a zeroed fault-free device at 1 GHz on the RX
module. -/
theorem set_frequency_dsm_cleanup_witness :
    (sf_step5_dsm_on (devNoFault (fun _ => 0))).1 = 0 ∧
    ((lms_set_frequency (devNoFault (fun _ => 0)) LmsModule.rx 1000000000).2
       = (sf_dsm_off (sf_body (sf_step5_dsm_on (devNoFault (fun _ => 0))).2
            LmsModule.rx 1000000000).2).2) :=
  ⟨by decide,
   ((set_frequency_dsm_cleanup (devNoFault (fun _ => 0)) LmsModule.rx 1000000000
      (by decide))
      (sf_body (sf_step5_dsm_on (devNoFault (fun _ => 0))).2 LmsModule.rx 1000000000).1
      (sf_body (sf_step5_dsm_on (devNoFault (fun _ => 0))).2 LmsModule.rx 1000000000).2
      rfl).1⟩

/-- Masking helper checked over the finite range it is used on. -/
theorem or_data_mask_fin : ∀ x : Fin 65, ∀ k : Fin 4,
    ((x.val ||| 64 * k.val) % 2 ^ 8) &&& 63 = x.val &&& 63 := by decide

/-- Writing a 6-bit code or-ed with the preserved high bits of the trim
register, then masking the byte back to 6 bits, recovers the code. -/
theorem or_data_mask (x data : Nat) (hx : x ≤ 64) (hd : data < 256) (hd64 : data % 64 = 0) :
    ((x ||| data) % 2 ^ 8) &&& 63 = x &&& 63 := by
  have h1 : data = 64 * (data / 64) := by omega
  have h2 : data / 64 < 4 := by omega
  have h3 := or_data_mask_fin ⟨x, by omega⟩ ⟨data / 64, h2⟩
  rw [← h1] at h3
  exact h3

theorem and63_self (x : Nat) (h : x < 64) : x &&& 63 = x := by
  rw [and63_eq_mod]; omega

/-- The data mask 0x3f XOR 255 keeps only the two high bits. -/
theorem data_mask_facts (x : Nat) :
    (x &&& (0x3f ^^^ 255)) % 64 = 0 ∧ x &&& (0x3f ^^^ 255) < 256 := by
  have he : (0x3f ^^^ 255 : Nat) = 192 := by decide
  rw [he]
  constructor
  · rw [← and63_eq_mod, Nat.and_assoc]
    have h0 : (192 &&& 63 : Nat) = 0 := by decide
    rw [h0, Nat.and_zero]
  · exact lt_of_le_of_lt (Nat.and_le_right) (by decide)

/-- A fault-free write on a VCO device model. -/
theorem vcoW (base : Nat) (vt regs0 : Nat → Nat) (idx a v : Nat) :
    LMS_WRITE (mkVcoDevAt base vt regs0 idx) a v
      = (0, mkVcoDevAt base vt (fun y => if y = a then v % 2 ^ 8 else regs0 y) (idx + 1)) := by
  simp [LMS_WRITE, mkVcoDevAt]

/-- A fault-free status read on a VCO device model answers the tune
status of the 6-bit code programmed in base+9. -/
theorem vcoR (base : Nat) (vt regs0 : Nat → Nat) (idx : Nat) :
    LMS_READ (mkVcoDevAt base vt regs0 idx) (base + 10)
      = (0, vt (regs0 (base + 9) &&& 63) % 2 ^ 8, mkVcoDevAt base vt regs0 (idx + 1)) := by
  simp [LMS_READ, mkVcoDevAt, Dev.bump]

/-- One unfolding of the phase A loop on the VCO device model. -/
theorem loopA_step (base : Nat) (vt : Nat → Nat) (data : Nat) (regs : Nat → Nat)
    (idx fuel vc step vtprev : Nat) (hd : data < 256) (hd64 : data % 64 = 0) (hvc : vc ≤ 63) :
    vco_scan_loopA base data (fuel + 1) (mkVcoDevAt base vt regs idx) vc step vtprev
      = (if vco_status vt vc = 0 then
           (0, vc, vco_status vt vc, mkVcoDevAt base vt (vco_wregs base vc data regs) (idx + 2))
         else if vco_status vt vc = 2 then
           vco_scan_loopA base data fuel (mkVcoDevAt base vt (vco_wregs base vc data regs) (idx + 2))
             ((vc + step) % 2 ^ 8) (step >>> 1) (vco_status vt vc)
         else if vco_status vt vc = 1 then
           vco_scan_loopA base data fuel (mkVcoDevAt base vt (vco_wregs base vc data regs) (idx + 2))
             ((vc + 2 ^ 8 - step) % 2 ^ 8) (step >>> 1) (vco_status vt vc)
         else (BLADERF_ERR_UNEXPECTED, vc, vco_status vt vc,
               mkVcoDevAt base vt (vco_wregs base vc data regs) (idx + 2))) := by
  have hmask : ((vc ||| data) % 2 ^ 8) &&& 63 = vc := by
    rw [or_data_mask vc data (by omega) hd hd64]
    exact and63_self vc (by omega)
  have h00 : ¬ ((0 : Int) ≠ 0) := by norm_num
  simp only [vco_scan_loopA]
  rw [vcoW]
  dsimp only
  rw [if_neg h00]
  rw [show (fun y => if y = base + 9 then (vc ||| data) % 2 ^ 8 else regs y)
        = vco_wregs base vc data regs from rfl]
  rw [vcoR]
  dsimp only
  rw [if_neg h00]
  rw [show vco_wregs base vc data regs (base + 9) = (vc ||| data) % 2 ^ 8 from by
        simp [vco_wregs]]
  rw [hmask]
  rw [show (vt vc % 2 ^ 8) >>> 6 = vco_status vt vc from rfl]

/-- Phase A of tune_vcocap refines the claim-side binary search. -/
theorem loopA_refine (base : Nat) (vt : Nat → Nat) (data : Nat)
    (hd : data < 256) (hd64 : data % 64 = 0) :
    ∀ fuel vc step vtprev (regs : Nat → Nat) (idx : Nat),
      2 * step ≤ vc → vc + 2 * step ≤ 64 → vc ≤ 63 → (fuel ≠ 0 ∨ vtprev ≠ 0) →
      (∀ c, phaseA_claim (vco_status vt) fuel vc step = some c →
        ∃ regs1 idx1,
          vco_scan_loopA base data fuel (mkVcoDevAt base vt regs idx) vc step vtprev
            = (0, c, 0, mkVcoDevAt base vt regs1 idx1) ∧ c ≤ 63) ∧
      (phaseA_claim (vco_status vt) fuel vc step = Option.none →
        (vco_scan_loopA base data fuel (mkVcoDevAt base vt regs idx) vc step vtprev).1
            = BLADERF_ERR_UNEXPECTED ∨
        ∃ vc1 vt1 regs1 idx1,
          vco_scan_loopA base data fuel (mkVcoDevAt base vt regs idx) vc step vtprev
            = (0, vc1, vt1, mkVcoDevAt base vt regs1 idx1) ∧ vt1 ≠ 0) := by
  intro fuel
  induction fuel with
  | zero =>
    intro vc step vtprev regs idx h1 h2 h3 h0
    constructor
    · intro c hc
      simp [phaseA_claim] at hc
    · intro _
      right
      exact ⟨vc, vtprev, regs, idx, rfl, h0.resolve_left (by simp)⟩
  | succ fuel ih =>
    intro vc step vtprev regs idx h1 h2 h3 _h0
    have hs2 : step >>> 1 = step / 2 := Nat.shiftRight_one step
    rw [loopA_step base vt data regs idx fuel vc step vtprev hd hd64 h3]
    by_cases hv0 : vco_status vt vc = 0
    · rw [if_pos hv0]
      constructor
      · intro c hc
        simp only [phaseA_claim, hv0, if_pos, Option.some.injEq] at hc
        subst hc
        refine ⟨vco_wregs base vc data regs, idx + 2, ?_, by omega⟩
        rw [hv0]
      · intro hc
        simp [phaseA_claim, hv0] at hc
    · rw [if_neg hv0]
      by_cases hv2 : vco_status vt vc = 2
      · rw [if_pos hv2]
        have hmod : (vc + step) % 2 ^ 8 = vc + step := Nat.mod_eq_of_lt (by omega)
        have ihx := ih ((vc + step) % 2 ^ 8) (step >>> 1) (vco_status vt vc)
          (vco_wregs base vc data regs) (idx + 2)
          (by rw [hmod, hs2]; omega) (by rw [hmod, hs2]; omega)
          (by rw [hmod]; omega) (Or.inr (by rw [hv2]; omega))
        constructor
        · intro c hc
          simp only [phaseA_claim, hv0, hv2, if_neg, if_pos, reduceIte] at hc
          exact ihx.1 c hc
        · intro hc
          simp only [phaseA_claim, hv0, hv2, if_neg, if_pos, reduceIte] at hc
          exact ihx.2 hc
      · rw [if_neg hv2]
        by_cases hv1 : vco_status vt vc = 1
        · rw [if_pos hv1]
          have hmod : (vc + 2 ^ 8 - step) % 2 ^ 8 = vc - step := by omega
          have ihx := ih ((vc + 2 ^ 8 - step) % 2 ^ 8) (step >>> 1) (vco_status vt vc)
            (vco_wregs base vc data regs) (idx + 2)
            (by rw [hmod, hs2]; omega) (by rw [hmod, hs2]; omega)
            (by rw [hmod]; omega) (Or.inr (by rw [hv1]; omega))
          constructor
          · intro c hc
            simp only [phaseA_claim, hv0, hv2, hv1, if_neg, if_pos, reduceIte] at hc
            exact ihx.1 c hc
          · intro hc
            simp only [phaseA_claim, hv0, hv2, hv1, if_neg, if_pos, reduceIte] at hc
            exact ihx.2 hc
        · rw [if_neg hv1]
          constructor
          · intro c hc
            simp [phaseA_claim, hv0, hv2, hv1] at hc
          · intro _
            left
            rfl

/-- The lower edge of phase B is at least 1. -/
theorem lowerEdge_pos (st : Nat → Nat) : ∀ n v, 1 ≤ lowerEdge st n v := by
  intro n
  induction n with
  | zero => intro v; simp [lowerEdge]
  | succ n ih =>
    intro v
    by_cases h : v = 2
    · simp [lowerEdge, h]
    · simpa [lowerEdge, h] using ih (st n)

/-- One unfolding of the phase B down-scan on the VCO device model. -/
theorem scan_down_step (base : Nat) (vt : Nat → Nat) (data : Nat) (regs : Nat → Nat)
    (idx st vtune : Nat) (hd : data < 256) (hd64 : data % 64 = 0) (hst : st ≤ 63)
    (hv : vtune ≠ 2) :
    vco_scan_down base data (st + 1) (mkVcoDevAt base vt regs idx) vtune
      = vco_scan_down base data st
          (mkVcoDevAt base vt (vco_wregs base st data regs) (idx + 2)) (vco_status vt st) := by
  have hmask : ((st ||| data) % 2 ^ 8) &&& 63 = st := by
    rw [or_data_mask st data (by omega) hd hd64]
    exact and63_self st (by omega)
  have h00 : ¬ ((0 : Int) ≠ 0) := by norm_num
  simp only [vco_scan_down]
  rw [if_neg hv]
  rw [vcoW]
  dsimp only
  rw [if_neg h00]
  rw [show (fun y => if y = base + 9 then (st ||| data) % 2 ^ 8 else regs y)
        = vco_wregs base st data regs from rfl]
  rw [vcoR]
  dsimp only
  rw [if_neg h00]
  rw [show vco_wregs base st data regs (base + 9) = (st ||| data) % 2 ^ 8 from by
        simp [vco_wregs]]
  rw [hmask]
  rw [show (vt st % 2 ^ 8) >>> 6 = vco_status vt st from rfl]

/-- The phase B down-scan refines the claim-side lower-edge search. -/
theorem scan_down_refine (base : Nat) (vt : Nat → Nat) (data : Nat)
    (hd : data < 256) (hd64 : data % 64 = 0) :
    ∀ start vtune (regs : Nat → Nat) (idx : Nat), start ≤ 63 →
      ∃ vtd regs1 idx1,
        vco_scan_down base data start (mkVcoDevAt base vt regs idx) vtune
          = (0, lowerEdge (vco_status vt) start vtune - 1, vtd, mkVcoDevAt base vt regs1 idx1) ∧
        lowerEdge (vco_status vt) start vtune - 1 ≤ start := by
  intro start
  induction start with
  | zero =>
    intro vtune regs idx _
    refine ⟨vtune, regs, idx, ?_, by simp [lowerEdge]⟩
    simp [vco_scan_down, lowerEdge]
  | succ st ih =>
    intro vtune regs idx hle
    by_cases hv : vtune = 2
    · refine ⟨vtune, regs, idx, ?_, ?_⟩
      · simp [vco_scan_down, lowerEdge, hv]
      · simp [lowerEdge, hv]
    · rw [scan_down_step base vt data regs idx st vtune hd hd64 (by omega) hv]
      have hL : lowerEdge (vco_status vt) (st + 1) vtune
          = lowerEdge (vco_status vt) st (vco_status vt st) := by
        simp [lowerEdge, hv]
      obtain ⟨vtd, regs1, idx1, heq, hb⟩ :=
        ih (vco_status vt st) (vco_wregs base st data regs) (idx + 2) (by omega)
      refine ⟨vtd, regs1, idx1, ?_, ?_⟩
      · rw [hL]; exact heq
      · rw [hL]; omega

/-- One unfolding of the phase B up-scan on the VCO device model. -/
theorem scan_up_step (base : Nat) (vt : Nat → Nat) (data : Nat) (regs : Nat → Nat)
    (idx fuel stop vtune : Nat) (hd : data < 256) (hd64 : data % 64 = 0)
    (hstop : stop + 1 ≤ 64) (hg : ¬ (64 ≤ stop ∨ vtune = 1)) :
    vco_scan_up base data (fuel + 1) (mkVcoDevAt base vt regs idx) stop vtune
      = vco_scan_up base data fuel
          (mkVcoDevAt base vt (vco_wregs base (stop + 1) data regs) (idx + 2)) (stop + 1)
          (vco_status vt ((stop + 1) &&& 63)) := by
  have hmask : (((stop + 1) ||| data) % 2 ^ 8) &&& 63 = (stop + 1) &&& 63 :=
    or_data_mask (stop + 1) data (by omega) hd hd64
  have h00 : ¬ ((0 : Int) ≠ 0) := by norm_num
  simp only [vco_scan_up]
  rw [if_neg hg]
  rw [vcoW]
  dsimp only
  rw [if_neg h00]
  rw [show (fun y => if y = base + 9 then ((stop + 1) ||| data) % 2 ^ 8 else regs y)
        = vco_wregs base (stop + 1) data regs from rfl]
  rw [vcoR]
  dsimp only
  rw [if_neg h00]
  rw [show vco_wregs base (stop + 1) data regs (base + 9) = ((stop + 1) ||| data) % 2 ^ 8 from by
        simp [vco_wregs]]
  rw [hmask]
  rw [show (vt ((stop + 1) &&& 63) % 2 ^ 8) >>> 6 = vco_status vt ((stop + 1) &&& 63) from rfl]

/-- The phase B up-scan refines the claim-side upper-edge search. -/
theorem scan_up_refine (base : Nat) (vt : Nat → Nat) (data : Nat)
    (hd : data < 256) (hd64 : data % 64 = 0) :
    ∀ fuel stop vtune (regs : Nat → Nat) (idx : Nat), stop ≤ 64 →
      ∃ vtu regs1 idx1 s1,
        vco_scan_up base data fuel (mkVcoDevAt base vt regs idx) stop vtune
          = (0, s1, vtu, mkVcoDevAt base vt regs1 idx1) ∧
        s1 - 1 = upperEdge (vco_status vt) fuel stop vtune ∧ s1 ≤ 64 := by
  intro fuel
  induction fuel with
  | zero =>
    intro stop vtune regs idx hle
    exact ⟨vtune, regs, idx, stop, rfl, by simp [upperEdge], hle⟩
  | succ fuel ih =>
    intro stop vtune regs idx hle
    by_cases hg : 64 ≤ stop ∨ vtune = 1
    · refine ⟨vtune, regs, idx, stop, ?_, ?_, hle⟩
      · simp [vco_scan_up, hg]
      · simp [upperEdge, hg]
    · rw [scan_up_step base vt data regs idx fuel stop vtune hd hd64 (by omega) hg]
      have hU : upperEdge (vco_status vt) (fuel + 1) stop vtune
          = upperEdge (vco_status vt) fuel (stop + 1) (vco_status vt ((stop + 1) &&& 63)) := by
        simp [upperEdge, hg]
      obtain ⟨vtu, regs1, idx1, s1, heq, hrel, hs⟩ :=
        ih (stop + 1) (vco_status vt ((stop + 1) &&& 63))
          (vco_wregs base (stop + 1) data regs) (idx + 2) (by omega)
      exact ⟨vtu, regs1, idx1, s1, heq, by rw [hU]; exact hrel, hs⟩

/-- A fault-free read of the trim register base+9 on the VCO model. -/
theorem vcoR9 (base : Nat) (vt regs0 : Nat → Nat) (idx : Nat) :
    LMS_READ (mkVcoDevAt base vt regs0 idx) (base + 9)
      = (0, regs0 (base + 9) % 2 ^ 8, mkVcoDevAt base vt regs0 (idx + 1)) := by
  have h : base + 9 ≠ base + 10 := by omega
  simp [LMS_READ, mkVcoDevAt, Dev.bump, h]

/-- C4: on a deterministic fault-free VCO device model, phase A of
tune_vcocap computes exactly the claim's 6-iteration binary search from
code 32 with step 16 (stop on Normal, add on High, subtract on Low,
halve the step, fail on any other status or exhaustion); tune_vcocap
only ever returns 0 or BLADERF_ERR_UNEXPECTED, fails when phase A finds
no Normal code, and on success programs exactly the integer midpoint
(start + stop) / 2 of the phase B edges, failing with
BLADERF_ERR_UNEXPECTED when the status read back there is not Normal. -/
theorem vcocap_tuning_follows_spec (base : Nat) (vt regs0 : Nat → Nat) :
    phaseA_code_result base vt regs0 = phaseA_claim (vco_status vt) 6 32 16 ∧
    ((tune_vcocap (mkVcoDev base vt regs0) base).1 = 0 ∨
      (tune_vcocap (mkVcoDev base vt regs0) base).1 = BLADERF_ERR_UNEXPECTED) ∧
    (phaseA_claim (vco_status vt) 6 32 16 = Option.none →
      (tune_vcocap (mkVcoDev base vt regs0) base).1 = BLADERF_ERR_UNEXPECTED) ∧
    (∀ conv, phaseA_claim (vco_status vt) 6 32 16 = some conv →
      (vco_status vt ((lowerEdge (vco_status vt) conv 0 +
            upperEdge (vco_status vt) 65 conv (vco_status vt conv)) / 2) = 0 →
        (tune_vcocap (mkVcoDev base vt regs0) base).1 = 0 ∧
        (tune_vcocap (mkVcoDev base vt regs0) base).2.regs (base + 9) &&& 63 =
          (lowerEdge (vco_status vt) conv 0 +
            upperEdge (vco_status vt) 65 conv (vco_status vt conv)) / 2) ∧
      (vco_status vt ((lowerEdge (vco_status vt) conv 0 +
            upperEdge (vco_status vt) 65 conv (vco_status vt conv)) / 2) ≠ 0 →
        (tune_vcocap (mkVcoDev base vt regs0) base).1 = BLADERF_ERR_UNEXPECTED)) := by
  have h00 : ¬ ((0 : Int) ≠ 0) := by norm_num
  have hne : ¬ ((0 : Nat) ≠ 0) := by norm_num
  simp only [tune_vcocap, phaseA_code_result]
  rw [show mkVcoDev base vt regs0 = mkVcoDevAt base vt regs0 0 from rfl]
  rw [vcoR9 base vt regs0 0]
  dsimp only
  rw [if_neg h00]
  set data := (regs0 (base + 9) % 2 ^ 8) &&& (0x3f ^^^ 255) with hdata
  have hdm := data_mask_facts (regs0 (base + 9) % 2 ^ 8)
  rw [← hdata] at hdm
  rcases hA : phaseA_claim (vco_status vt) 6 32 16 with _ | conv
  · have href := (loopA_refine base vt data hdm.2 hdm.1 6 32 16 0 regs0 (0 + 1)
      (by omega) (by omega) (by omega) (Or.inl (by omega))).2 hA
    rcases href with h1 | ⟨vc1, vt1, regs1, idx1, hE, hvt1⟩
    · rcases hEE : vco_scan_loopA base data 6 (mkVcoDevAt base vt regs0 (0 + 1)) 32 16 0
        with ⟨sA, vcc, vtn, d2⟩
      rw [hEE] at h1
      dsimp only at h1
      dsimp only
      have hsne : sA ≠ 0 := by rw [h1]; norm_num [BLADERF_ERR_UNEXPECTED]
      rw [if_pos hsne, if_neg (fun h => hsne h.1)]
      exact ⟨rfl, Or.inr h1, fun _ => h1, fun conv hc => by simp at hc⟩
    · rw [hE]
      dsimp only
      rw [if_neg h00, if_pos hvt1, if_neg (fun h => hvt1 h.2)]
      exact ⟨rfl, Or.inr rfl, fun _ => rfl, fun conv hc => by simp at hc⟩
  · obtain ⟨regs1, idx1, hE, hc63⟩ :=
      (loopA_refine base vt data hdm.2 hdm.1 6 32 16 0 regs0 (0 + 1)
        (by omega) (by omega) (by omega) (Or.inl (by omega))).1 conv hA
    rw [hE]
    dsimp only
    rw [if_neg h00, if_neg hne, if_pos ⟨rfl, rfl⟩]
    obtain ⟨vtd, regs2, idx2, hD, hDle⟩ :=
      scan_down_refine base vt data hdm.2 hdm.1 conv 0 regs1 idx1 (by omega)
    rw [hD]
    dsimp only
    rw [if_neg h00]
    rw [vcoW]
    dsimp only
    rw [if_neg h00]
    rw [show (fun y => if y = base + 9 then (conv ||| data) % 2 ^ 8 else regs2 y)
          = vco_wregs base conv data regs2 from rfl]
    rw [vcoR]
    dsimp only
    rw [if_neg h00]
    rw [show vco_wregs base conv data regs2 (base + 9) = (conv ||| data) % 2 ^ 8 from by
          simp [vco_wregs]]
    rw [show ((conv ||| data) % 2 ^ 8) &&& 63 = conv from by
          rw [or_data_mask conv data (by omega) hdm.2 hdm.1]
          exact and63_self conv (by omega)]
    rw [show (vt conv % 2 ^ 8) >>> 6 = vco_status vt conv from rfl]
    obtain ⟨vtu, regs3, idx3, s1, hU, hUrel, hUle⟩ :=
      scan_up_refine base vt data hdm.2 hdm.1 65 conv (vco_status vt conv)
        (vco_wregs base conv data regs2) (idx2 + 1 + 1) (by omega)
    rw [hU]
    dsimp only
    rw [if_neg h00]
    have hstart : lowerEdge (vco_status vt) conv 0 - 1 + 1 = lowerEdge (vco_status vt) conv 0 := by
      have := lowerEdge_pos (vco_status vt) conv 0
      omega
    rw [hstart, hUrel]
    have hshift : (lowerEdge (vco_status vt) conv 0 +
        upperEdge (vco_status vt) 65 conv (vco_status vt conv)) >>> 1
        = (lowerEdge (vco_status vt) conv 0 +
        upperEdge (vco_status vt) 65 conv (vco_status vt conv)) / 2 :=
      Nat.shiftRight_one _
    rw [hshift]
    set m := (lowerEdge (vco_status vt) conv 0 +
        upperEdge (vco_status vt) 65 conv (vco_status vt conv)) / 2 with hm
    have hm63 : m ≤ 63 := by
      have h1 : lowerEdge (vco_status vt) conv 0 - 1 ≤ conv := hDle
      have h2 : upperEdge (vco_status vt) 65 conv (vco_status vt conv) = s1 - 1 := hUrel.symm
      have := lowerEdge_pos (vco_status vt) conv 0
      rw [hm, h2]
      omega
    rw [vcoW]
    dsimp only
    rw [if_neg h00]
    rw [show (fun y => if y = base + 9 then (m ||| data) % 2 ^ 8 else regs3 y)
          = vco_wregs base m data regs3 from rfl]
    rw [vcoR]
    dsimp only
    rw [if_neg h00]
    rw [show vco_wregs base m data regs3 (base + 9) = (m ||| data) % 2 ^ 8 from by
          simp [vco_wregs]]
    have hmask : ((m ||| data) % 2 ^ 8) &&& 63 = m := by
      rw [or_data_mask m data (by omega) hdm.2 hdm.1]
      exact and63_self m (by omega)
    rw [hmask]
    rw [show (vt m % 2 ^ 8) >>> 6 = vco_status vt m from rfl]
    by_cases hfin : vco_status vt m = 0
    · rw [if_neg (show ¬ vco_status vt m ≠ 0 from by simp [hfin])]
      refine ⟨rfl, Or.inl rfl, fun h => by simp at h, fun conv' hc => ?_⟩
      cases hc
      rw [← hm]
      refine ⟨fun _ => ⟨rfl, ?_⟩, fun h => absurd hfin h⟩
      show vco_wregs base m data regs3 (base + 9) &&& 63 = m
      rw [show vco_wregs base m data regs3 (base + 9) = (m ||| data) % 2 ^ 8 from by
            simp [vco_wregs]]
      exact hmask
    · rw [if_pos hfin]
      refine ⟨rfl, Or.inr rfl, fun h => by simp at h, fun conv' hc => ?_⟩
      cases hc
      rw [← hm]
      exact ⟨fun h => absurd h hfin, fun _ => rfl⟩


/-- C4 witness: on the all-Normal status oracle the search converges at
code 32, both phase B edges bracket it (1 and 63), and tune_vcocap
succeeds programming the midpoint 32. -/
theorem vcocap_tuning_follows_spec_witness :
    (tune_vcocap (mkVcoDev 0 (fun _ => 0) (fun _ => 0)) 0).1 = 0 ∧
    (tune_vcocap (mkVcoDev 0 (fun _ => 0) (fun _ => 0)) 0).2.regs 9 &&& 63 = 32 := by
  have h := (vcocap_tuning_follows_spec 0 (fun _ => 0) (fun _ => 0)).2.2.2 32 (by decide)
  have h2 := h.1 (by decide)
  have hm : (lowerEdge (vco_status fun _ => 0) 32 0 +
      upperEdge (vco_status fun _ => 0) 65 32 (vco_status (fun _ => 0) 32)) / 2 = 32 := by
    decide
  rw [hm] at h2
  exact ⟨h2.1, by simpa using h2.2⟩

/-- C1 counterexample: on a device realising the 31-then-0 retry quirk,
dc_cal_submodule reports status 0 with converged = false; the quirk
outcome is success WITHOUT convergence, while the claim says the
submodule is treated as converged. -/
theorem dc_cal_quirk_not_converged :
    ((dc_cal_submodule (dcQuirkDev 0) CalModule.lpfTuning 0
        ⟨0, 0, 0, 0, 0, 0, 0, 1, 0, 0⟩).1,
     (dc_cal_submodule (dcQuirkDev 0) CalModule.lpfTuning 0
        ⟨0, 0, 0, 0, 0, 0, 0, 1, 0, 0⟩).2.1) = ((0 : Int), false) := by decide

/-- C1 (amended): for every module, submodule and device, when the first
calibration loop converges to the 6-bit value 31, the loop is retried
exactly once with DC_CNTVAL 0, and when that retry yields the value 0
the submodule step returns status 0 with converged = false: the quirk is
reported as a successful transaction WITHOUT convergence (the module
level then treats it as a non-converged attempt), not as a converged
success. -/
theorem dc_cal_submodule_quirk_retry (d : Dev) (module : CalModule) (submodule : Nat)
    (st : DcCalState)
    (hsetup : (if module = CalModule.rxvga2 then dc_cal_rxvga2_setup d submodule
               else (0, d)).1 = 0)
    (h1s : (lms_dc_cal_loop (if module = CalModule.rxvga2 then dc_cal_rxvga2_setup d submodule
               else (0, d)).2 st.base_addr submodule 31).1 = 0)
    (h1v : (lms_dc_cal_loop (if module = CalModule.rxvga2 then dc_cal_rxvga2_setup d submodule
               else (0, d)).2 st.base_addr submodule 31).2.1 = 31)
    (h2s : (lms_dc_cal_loop
              (lms_dc_cal_loop (if module = CalModule.rxvga2 then dc_cal_rxvga2_setup d submodule
                 else (0, d)).2 st.base_addr submodule 31).2.2
              st.base_addr submodule 0).1 = 0)
    (h2v : (lms_dc_cal_loop
              (lms_dc_cal_loop (if module = CalModule.rxvga2 then dc_cal_rxvga2_setup d submodule
                 else (0, d)).2 st.base_addr submodule 31).2.2
              st.base_addr submodule 0).2.1 = 0) :
    dc_cal_submodule d module submodule st
      = (0, false,
         (lms_dc_cal_loop
            (lms_dc_cal_loop (if module = CalModule.rxvga2 then dc_cal_rxvga2_setup d submodule
               else (0, d)).2 st.base_addr submodule 31).2.2
            st.base_addr submodule 0).2.2) := by
  simp only [dc_cal_submodule]
  rcases hA : (if module = CalModule.rxvga2 then dc_cal_rxvga2_setup d submodule
               else (0, d)) with ⟨s0, d1⟩
  rw [hA] at hsetup h1s h1v h2s h2v
  dsimp only at hsetup h1s h1v h2s h2v ⊢
  subst hsetup
  rw [if_neg (show ¬ ((0 : Int) ≠ 0) from by norm_num)]
  rcases hB : lms_dc_cal_loop d1 st.base_addr submodule 31 with ⟨s1, rv1, d2⟩
  rw [hB] at h1s h1v h2s h2v
  dsimp only at h1s h1v h2s h2v
  subst h1s
  subst h1v
  rw [if_neg (show ¬ ((0 : Int) ≠ 0) from by norm_num)]
  rw [if_pos rfl]
  rcases hC : lms_dc_cal_loop d2 st.base_addr submodule 0 with ⟨s2, rv2, d3⟩
  rw [hC] at h2s h2v
  dsimp only at h2s h2v
  subst h2s
  subst h2v
  rw [if_neg (show ¬ ((0 : Int) ≠ 0) from by norm_num)]
  rw [if_pos ⟨rfl, rfl⟩]

/-- C1 witness: the amended theorem applied to the quirk device. -/
theorem dc_cal_submodule_quirk_retry_witness :
    dc_cal_submodule (dcQuirkDev 0) CalModule.lpfTuning 0 ⟨0, 0, 0, 0, 0, 0, 0, 1, 0, 0⟩
      = (0, false,
         (lms_dc_cal_loop
            (lms_dc_cal_loop
               (if CalModule.lpfTuning = CalModule.rxvga2 then
                  dc_cal_rxvga2_setup (dcQuirkDev 0) 0
                else (0, dcQuirkDev 0)).2
               (DcCalState.base_addr ⟨0, 0, 0, 0, 0, 0, 0, 1, 0, 0⟩) 0 31).2.2
            (DcCalState.base_addr ⟨0, 0, 0, 0, 0, 0, 0, 1, 0, 0⟩) 0 0).2.2) :=
  dc_cal_submodule_quirk_retry (dcQuirkDev 0) CalModule.lpfTuning 0 ⟨0, 0, 0, 0, 0, 0, 0, 1, 0, 0⟩
    (by decide) (by decide) (by decide) (by decide) (by decide)

/-- C7: DC calibration terminates.  The retry adjustment lowers RXVGA1 by
1 dB while above its minimum (for RxLpf and Rxvga2), then lowers RXVGA2
by 3 dB (Rxvga2 only), and reports limit_reached once neither is
possible; LpfTuning and TxLpf reach the limit immediately.  The
calibration loop polls at most 25 times: a device signalling done at any
of the 25 poll slots succeeds, one signalling done one poll later - or
never - fails with BLADERF_ERR_UNEXPECTED after exactly 25 polls (32
transactions).  On a device whose submodules always report the
non-converging 31-then-0 quirk, lms_calibrate_dc of every module stops
retrying once no adjustment is possible and reports
BLADERF_ERR_UNEXPECTED, with the retry loop exiting on its own
condition, not by exhausting its iteration bound. -/
theorem dc_calibration_terminates :
    (∀ d st, BLADERF_RXVGA1_GAIN_MIN < st.rxvga1_curr_gain →
      (dc_cal_retry_adjustment d CalModule.rxLpf st).2.1
          = st.setCurr1 (st.rxvga1_curr_gain - 1) ∧
      (dc_cal_retry_adjustment d CalModule.rxLpf st).2.2.1 = false ∧
      (dc_cal_retry_adjustment d CalModule.rxvga2 st).2.1
          = st.setCurr1 (st.rxvga1_curr_gain - 1) ∧
      (dc_cal_retry_adjustment d CalModule.rxvga2 st).2.2.1 = false) ∧
    (∀ d st, st.rxvga1_curr_gain ≤ BLADERF_RXVGA1_GAIN_MIN →
      dc_cal_retry_adjustment d CalModule.rxLpf st = (0, st, true, d) ∧
      (BLADERF_RXVGA2_GAIN_MIN < st.rxvga2_curr_gain →
        (dc_cal_retry_adjustment d CalModule.rxvga2 st).2.1
            = st.setCurr2 (st.rxvga2_curr_gain - 3) ∧
        (dc_cal_retry_adjustment d CalModule.rxvga2 st).2.2.1 = false) ∧
      (st.rxvga2_curr_gain ≤ BLADERF_RXVGA2_GAIN_MIN →
        dc_cal_retry_adjustment d CalModule.rxvga2 st = (0, st, true, d))) ∧
    (∀ d st, dc_cal_retry_adjustment d CalModule.lpfTuning st = (0, st, true, d) ∧
      dc_cal_retry_adjustment d CalModule.txLpf st = (0, st, true, d)) ∧
    (∀ k : Fin 25,
      (lms_dc_cal_loop (pollSchedDev 0 (7 + k.val) (fun _ => 0)) 0 0 31).1 = 0) ∧
    (lms_dc_cal_loop (pollSchedDev 0 32 (fun _ => 0)) 0 0 31).1 = BLADERF_ERR_UNEXPECTED ∧
    (lms_dc_cal_loop (neverDoneDev 0 (fun _ => 0)) 0 0 31).1 = BLADERF_ERR_UNEXPECTED ∧
    (lms_dc_cal_loop (neverDoneDev 0 (fun _ => 0)) 0 0 31).2.2.idx = 32 ∧
    (lms_calibrate_dc (dcQuirkDev 0x00) CalModule.lpfTuning).1 = BLADERF_ERR_UNEXPECTED ∧
    (lms_calibrate_dc (dcQuirkDev 0x30) CalModule.txLpf).1 = BLADERF_ERR_UNEXPECTED ∧
    (lms_calibrate_dc (dcQuirkDev 0x50) CalModule.rxLpf).1 = BLADERF_ERR_UNEXPECTED ∧
    (lms_calibrate_dc (dcQuirkDev 0x60) CalModule.rxvga2).1 = BLADERF_ERR_UNEXPECTED ∧
    (dc_cal_main_loop CalModule.lpfTuning 64
      (dc_cal_module_init (dc_cal_backup (dcQuirkDev 0x00) CalModule.lpfTuning).2.2
        CalModule.lpfTuning (dc_cal_backup (dcQuirkDev 0x00) CalModule.lpfTuning).2.1).2.2
      (dc_cal_module_init (dc_cal_backup (dcQuirkDev 0x00) CalModule.lpfTuning).2.2
        CalModule.lpfTuning (dc_cal_backup (dcQuirkDev 0x00) CalModule.lpfTuning).2.1).2.1
      false false 0).2.2.2.2 = false ∧
    (dc_cal_main_loop CalModule.txLpf 64
      (dc_cal_module_init (dc_cal_backup (dcQuirkDev 0x30) CalModule.txLpf).2.2
        CalModule.txLpf (dc_cal_backup (dcQuirkDev 0x30) CalModule.txLpf).2.1).2.2
      (dc_cal_module_init (dc_cal_backup (dcQuirkDev 0x30) CalModule.txLpf).2.2
        CalModule.txLpf (dc_cal_backup (dcQuirkDev 0x30) CalModule.txLpf).2.1).2.1
      false false 0).2.2.2.2 = false ∧
    (dc_cal_main_loop CalModule.rxLpf 64
      (dc_cal_module_init (dc_cal_backup (dcQuirkDev 0x50) CalModule.rxLpf).2.2
        CalModule.rxLpf (dc_cal_backup (dcQuirkDev 0x50) CalModule.rxLpf).2.1).2.2
      (dc_cal_module_init (dc_cal_backup (dcQuirkDev 0x50) CalModule.rxLpf).2.2
        CalModule.rxLpf (dc_cal_backup (dcQuirkDev 0x50) CalModule.rxLpf).2.1).2.1
      false false 0).2.2.2.2 = false ∧
    (dc_cal_main_loop CalModule.rxvga2 64
      (dc_cal_module_init (dc_cal_backup (dcQuirkDev 0x60) CalModule.rxvga2).2.2
        CalModule.rxvga2 (dc_cal_backup (dcQuirkDev 0x60) CalModule.rxvga2).2.1).2.2
      (dc_cal_module_init (dc_cal_backup (dcQuirkDev 0x60) CalModule.rxvga2).2.2
        CalModule.rxvga2 (dc_cal_backup (dcQuirkDev 0x60) CalModule.rxvga2).2.1).2.1
      false false 0).2.2.2.2 = false := by
  refine ⟨?_, ?_, ?_, ?_, ?_, ?_, ?_, ?_, ?_, ?_, ?_, ?_, ?_, ?_, ?_⟩
  · intro d st h
    simp only [dc_cal_retry_adjustment]
    rw [if_pos h, if_pos h]
    exact ⟨rfl, rfl, rfl, rfl⟩
  · intro d st h
    have hn : ¬ (BLADERF_RXVGA1_GAIN_MIN < st.rxvga1_curr_gain) := not_lt.mpr h
    refine ⟨?_, ?_, ?_⟩
    · simp only [dc_cal_retry_adjustment]
      rw [if_neg hn]
    · intro h2
      simp only [dc_cal_retry_adjustment]
      rw [if_neg hn, if_pos h2]
      exact ⟨rfl, rfl⟩
    · intro h2
      simp only [dc_cal_retry_adjustment]
      rw [if_neg hn, if_neg (not_lt.mpr h2)]
  · intro d st
    exact ⟨rfl, rfl⟩
  · decide
  · decide
  · decide
  · decide
  · decide
  · decide
  · decide
  · decide
  · decide
  · decide
  · decide
  · decide

/-- C7 witness: the retry adjustment applied at a gain above the RXVGA1
minimum does not report the limit, and applied with both RX gains at
their minima it reports the limit with the state unchanged. -/
theorem dc_calibration_terminates_witness :
    (dc_cal_retry_adjustment (dcQuirkDev 0) CalModule.rxLpf
        ⟨0, 0, 0, 0, 0, 0, 0x50, 2, 30, 30⟩).2.2.1 = false ∧
    dc_cal_retry_adjustment (dcQuirkDev 0) CalModule.rxvga2
        ⟨0, 0, 0, 0, 0, 0, 0x60, 5, 5, 0⟩
      = (0, ⟨0, 0, 0, 0, 0, 0, 0x60, 5, 5, 0⟩, true, dcQuirkDev 0) := by
  constructor
  · exact (dc_calibration_terminates.1 (dcQuirkDev 0)
      ⟨0, 0, 0, 0, 0, 0, 0x50, 2, 30, 30⟩ (by decide)).2.1
  · exact ((dc_calibration_terminates.2.1 (dcQuirkDev 0)
      ⟨0, 0, 0, 0, 0, 0, 0x60, 5, 5, 0⟩ (by decide)).2.2 (by decide))
